import Mathlib

/-!
Cluster authorizer (`pkg/authorizer/clusterauthorizer`).

A shallow embedding of `clusterauthorizer.go`: the `Authorizer` with its three
operations `Token`, `Authorize` and `NewSystemOrConfiguredProxy`.

Conventions of the embedding.

* A Go `string` is a Lean `String`, read as its sequence of Unicode code
  points (`String.data`); `len` is the length in UTF-8 bytes, as in Go.
* A Go result `(v, err)` is the pair `(v, err)` with `err : Option error`,
  `none` standing for `nil`.
* A Go function that mutates its argument returns the argument's new value.
* A Go pointer that may be `nil` is an `Option`.
-/

set_option autoImplicit false

namespace clusterauthorizer

/-! ## Standard library: `unicode`, `strings`, `fmt` -/

/-- Go `unicode.IsSpace`: the Latin-1 space characters
`'\t', '\n', '\v', '\f', '\r', ' ', U+0085, U+00A0`, and above Latin-1 the
code points of the Unicode `White_Space` property. -/
def unicode.IsSpace (r : Char) : Bool :=
  if r.toNat ≤ 0xFF then
    r.toNat == 0x09 || r.toNat == 0x0A || r.toNat == 0x0B || r.toNat == 0x0C ||
      r.toNat == 0x0D || r.toNat == 0x20 || r.toNat == 0x85 || r.toNat == 0xA0
  else
    r.toNat == 0x1680 || (0x2000 ≤ r.toNat && r.toNat ≤ 0x200A) ||
      r.toNat == 0x2028 || r.toNat == 0x2029 || r.toNat == 0x202F ||
      r.toNat == 0x205F || r.toNat == 0x3000

/-- Go builtin `len` on a string: its number of bytes. -/
def len (s : String) : Nat :=
  s.utf8ByteSize

/-- Go `strings.TrimLeftFunc`: drops the leading code points satisfying `f`. -/
def strings.TrimLeftFunc (s : String) (f : Char → Bool) : String :=
  ⟨s.data.dropWhile f⟩

/-- Go `strings.TrimRightFunc`: drops the trailing code points satisfying `f`. -/
def strings.TrimRightFunc (s : String) (f : Char → Bool) : String :=
  ⟨s.data.rdropWhile f⟩

/-- Go `strings.TrimFunc`: `TrimRightFunc(TrimLeftFunc(s, f), f)`. -/
def strings.TrimFunc (s : String) (f : Char → Bool) : String :=
  strings.TrimRightFunc (strings.TrimLeftFunc s f) f

/-- Go `strings.TrimSpace`: all leading and trailing white space removed, as
defined by Unicode. -/
def strings.TrimSpace (s : String) : String :=
  strings.TrimFunc s unicode.IsSpace

/-- Go `strings.Contains`: whether `substr` occurs within `s`. -/
def strings.Contains (s substr : String) : Bool :=
  decide (substr.data <:+: s.data)

/-- Go `error` value, identified by its message (`Error()`). -/
structure error where
  msg : String
  deriving DecidableEq, Repr

/-- Go `fmt.Errorf` with a format that has no verbs. -/
def fmt.Errorf (format : String) : error :=
  ⟨format⟩

/-! ## Configuration providers -/

/-- Modelled from the spec: the secret-scoped configuration snapshot, declared
outside this package; only its `Token` field is read here. -/
structure config.Controller where
  Token : String
  deriving DecidableEq, Repr

/-- Modelled from the spec: the `Proxy` sub-structure of the cluster-scoped
configuration snapshot, declared outside this package. -/
structure config.Proxy where
  HTTPProxy : String
  HTTPSProxy : String
  NoProxy : String
  deriving DecidableEq, Repr

/-- Modelled from the spec: the cluster-scoped configuration snapshot, declared
outside this package; only its `Proxy` field is read here. -/
structure config.InsightsConfiguration where
  Proxy : config.Proxy
  deriving DecidableEq, Repr

/-- Modelled from the spec: the secret configuration provider
`configobserver.Configurator`; `Config` is the snapshot its `Config()` read
returns. -/
structure configobserver.Configurator where
  Config : config.Controller

/-- Modelled from the spec: the cluster configuration provider
`configobserver.Interface`; `Config` is the snapshot its `Config()` read
returns, `none` when it returns `nil`. -/
structure configobserver.Interface where
  Config : Option config.InsightsConfiguration

/-! ## Standard library: `net/textproto`, `net/http`, `net/url` -/

/-- Go `textproto.validHeaderFieldByte`: the `tchar` bytes of RFC 7230,
letters, digits and ``!#$%&'*+-.^_`|~``. -/
def textproto.validHeaderFieldByte (c : Char) : Bool :=
  c.isAlphanum || c.toNat ∈ [0x21, 0x23, 0x24, 0x25, 0x26, 0x27, 0x2A, 0x2B, 0x2D, 0x2E,
    0x5E, 0x5F, 0x60, 0x7C, 0x7E]

/-- The canonicalising loop of Go `textproto.canonicalMIMEHeaderKey`: a letter
is made upper case when `upper` holds and lower case otherwise; `upper` holds
at the start and after each `-`. -/
def textproto.canonicalise : Bool → List Char → List Char
  | _, [] => []
  | upper, c :: cs =>
    let c := if upper then c.toUpper else c.toLower
    c :: textproto.canonicalise (c == '-') cs

/-- Go `textproto.CanonicalMIMEHeaderKey`: a key holding a byte that is not a
valid header field byte is returned unchanged; otherwise the first letter and
every letter after a hyphen become upper case, the other letters lower case. -/
def textproto.CanonicalMIMEHeaderKey (s : String) : String :=
  if s.data.all textproto.validHeaderFieldByte then
    ⟨textproto.canonicalise true s.data⟩
  else s

/-- Go `http.Header`, a `map[string][]string`: `h key` is `none` when the map
has no entry for `key`. -/
def http.Header : Type :=
  String → Option (List String)

/-- Go `make(http.Header)`: the empty map. -/
def http.Header.make : http.Header :=
  fun _ => none

/-- Go `http.Header.Set`: the entry of the canonical form of `key` becomes the
single element `value`, replacing any existing values. -/
def http.Header.Set (h : http.Header) (key value : String) : http.Header :=
  fun k => if k = textproto.CanonicalMIMEHeaderKey key then some [value] else h k

/-- Go `url.URL`, with the fields a proxy decision looks at. -/
structure url.URL where
  Scheme : String
  Host : String
  Path : String
  deriving DecidableEq, Repr

/-- Go `http.Request`, with the two fields this package touches; `Header` is
`none` for a `nil` map. -/
structure http.Request where
  Header : Option http.Header
  URL : url.URL

/-- Go map read `req.Header[key]`: reading a `nil` map finds no entry. -/
def http.Request.values (req : http.Request) (key : String) : Option (List String) :=
  match req.Header with
  | none => none
  | some h => h key

/-- Go `httpproxy.Config` of `golang.org/x/net/http/httpproxy`. -/
structure httpproxy.Config where
  HTTPProxy : String
  HTTPSProxy : String
  NoProxy : String
  CGI : Bool
  deriving DecidableEq, Repr

/-- Result `(*url.URL, error)` of a proxy-selection function: the proxy URL to
use (`none` for no proxy) and the error (`none` for `nil`). -/
abbrev ProxyResult : Type :=
  Option url.URL × Option error

/-- Functions of packages outside this repository that the proxy selection
calls, taken as parameters: `http.ProxyFromEnvironment`,
`(*httpproxy.Config).ProxyFunc` and `knet.NewProxierWithNoProxyCIDR`. -/
structure Externals where
  ProxyFromEnvironment : http.Request → ProxyResult
  ProxyFunc : httpproxy.Config → url.URL → ProxyResult
  NewProxierWithNoProxyCIDR : (http.Request → ProxyResult) → http.Request → ProxyResult

/-! ## The authorizer -/

/-- Go `Authorizer`. -/
structure Authorizer where
  secretConfigurator : configobserver.Configurator
  configurator : configobserver.Interface
  proxyFromEnvironment : http.Request → ProxyResult

/-- Go `New`: creates a new Authorizer. -/
def New (E : Externals) (secretConfigurator : configobserver.Configurator)
    (configurator : configobserver.Interface) : Authorizer :=
  { secretConfigurator := secretConfigurator
    configurator := configurator
    proxyFromEnvironment := E.ProxyFromEnvironment }

/-- Go `(*Authorizer).Token`. -/
def Authorizer.Token (a : Authorizer) : String × Option error :=
  let cfg := a.secretConfigurator.Config
  if len cfg.Token > 0 then
    let token := strings.TrimSpace cfg.Token
    if strings.Contains token "\n" || strings.Contains token "\r" then
      ("", some (fmt.Errorf "cluster authorization token is not valid: contains newlines"))
    else if len token == 0 then
      ("", some (fmt.Errorf "cluster authorization token is empty"))
    else
      (token, none)
  else
    ("", some (fmt.Errorf "cluster authorization token is not configured"))

/-- Go `(*Authorizer).Authorize`: returns the request as the call leaves it,
and the error. -/
def Authorizer.Authorize (a : Authorizer) (req : http.Request) : http.Request × Option error :=
  let header : http.Header :=
    match req.Header with
    | none => http.Header.make
    | some h => h
  match a.Token with
  | (_, some err) => ({ req with Header := some header }, some err)
  | (token, none) =>
    -- fmt.Sprintf("Bearer %s", token)
    ({ req with Header := some (header.Set "Authorization" ("Bearer " ++ token)) }, none)

/-- The function values `NewSystemOrConfiguredProxy` returns: the closure over
`proxyConfig`, or the result of `knet.NewProxierWithNoProxyCIDR` on its
delegate. -/
inductive Proxier where
  | configured (proxyConfig : httpproxy.Config)
  | system (delegate : http.Request → ProxyResult)

/-- Calling a returned proxy-selection function on a request. -/
def Proxier.call (E : Externals) : Proxier → http.Request → ProxyResult
  | Proxier.configured proxyConfig, req => E.ProxyFunc proxyConfig req.URL
  | Proxier.system delegate, req => E.NewProxierWithNoProxyCIDR delegate req

/-- Go `(*Authorizer).NewSystemOrConfiguredProxy`. -/
def Authorizer.NewSystemOrConfiguredProxy (a : Authorizer) : Proxier :=
  match a.configurator.Config with
  | some c =>
    if len c.Proxy.HTTPProxy > 0 || len c.Proxy.HTTPSProxy > 0 || len c.Proxy.NoProxy > 0 then
      let proxyConfig : httpproxy.Config :=
        { HTTPProxy := c.Proxy.HTTPProxy
          HTTPSProxy := c.Proxy.HTTPSProxy
          NoProxy := c.Proxy.NoProxy
          CGI := false }
      Proxier.configured proxyConfig
    else
      Proxier.system a.proxyFromEnvironment
  | none => Proxier.system a.proxyFromEnvironment

/-! ## External package `golang.org/x/net/http/httpproxy`

The proxy function of `httpproxy.Config`, with the functions of `net` and
`net/url` it calls. A library function that returns a `nil` value whenever it
fails is an `Except`, or an `Option` where only success matters. -/

/-- Go `strings.Split` with a separator of one character. -/
def strings.Split (s : String) (sep : Char) : List String :=
  (s.data.splitOn sep).map String.mk

/-- Go `strings.HasPrefix`. -/
def strings.HasPrefix (s pre : String) : Bool :=
  pre.data.isPrefixOf s.data

/-- Go `strings.HasSuffix`. -/
def strings.HasSuffix (s suffix : String) : Bool :=
  suffix.data.isSuffixOf s.data

/-- Go `strings.IndexByte`: the index of the first `c` in `s`, `none` for `-1`. -/
def strings.IndexByte (s : String) (c : Char) : Option Nat :=
  if s.data.indexOf c < s.data.length then some (s.data.indexOf c) else none

/-- Go `strings.LastIndexByte`: the index of the last `c` in `s`, `none` for `-1`. -/
def strings.LastIndexByte (s : String) (c : Char) : Option Nat :=
  if s.data.reverse.indexOf c < s.data.length then
    some (s.data.length - 1 - s.data.reverse.indexOf c)
  else none

/-- Go slice expression `s[i:j]`. -/
def slice (s : String) (i j : Nat) : String :=
  ⟨(s.data.drop i).take (j - i)⟩

/-- Go `net.IP`: a slice of bytes, 4 for an IPv4 address and 16 for an IPv6
address; the empty list is `nil`. -/
abbrev net.IP : Type :=
  List Nat

/-- Go `net.IPNet`: a network number and its mask. -/
structure net.IPNet where
  IP : net.IP
  Mask : List Nat
  deriving DecidableEq, Repr

/-- Go `net.IP.To4`: the 4-byte form of an IPv4 address, `none` for `nil`. -/
def net.IP.To4 (ip : net.IP) : Option net.IP :=
  if ip.length = 4 then some ip
  else if ip.length = 16 ∧ (ip.take 10).all (fun b => b == 0) ∧
      ip.get? 10 = some 0xff ∧ ip.get? 11 = some 0xff then
    some (ip.drop 12)
  else none

/-- Go `net.IP.Equal`: an IPv4 address and its IPv6 form are equal. -/
def net.IP.Equal (ip x : net.IP) : Bool :=
  if ip.length = x.length then ip == x
  else if ip.length = 4 ∧ x.length = 16 then
    x.take 12 == [0, 0, 0, 0, 0, 0, 0, 0, 0, 0, 0xff, 0xff] && ip == x.drop 12
  else if ip.length = 16 ∧ x.length = 4 then
    ip.take 12 == [0, 0, 0, 0, 0, 0, 0, 0, 0, 0, 0xff, 0xff] && ip.drop 12 == x
  else false

/-- Go `net.IP.IsLoopback`: `127.0.0.0/8` and `::1`. -/
def net.IP.IsLoopback (ip : net.IP) : Bool :=
  match ip.To4 with
  | some ip4 => ip4.head? == some 127
  | none => ip.Equal [0, 0, 0, 0, 0, 0, 0, 0, 0, 0, 0, 0, 0, 0, 0, 1]

/-- Go `net.networkNumberAndMask`; the pair of `nil`s is `([], [])`. -/
def net.networkNumberAndMask (n : net.IPNet) : net.IP × List Nat :=
  match (match n.IP.To4 with
    | some ip => some ip
    | none => if n.IP.length ≠ 16 then none else some n.IP) with
  | none => ([], [])
  | some ip =>
    if n.Mask.length = 4 then
      if ip.length ≠ 4 then ([], []) else (ip, n.Mask)
    else if n.Mask.length = 16 then
      if ip.length = 4 then (ip, n.Mask.drop 12) else (ip, n.Mask)
    else ([], [])

/-- Go `(*net.IPNet).Contains`. -/
def net.IPNet.Contains (n : net.IPNet) (ip : net.IP) : Bool :=
  let nn := (net.networkNumberAndMask n).1
  let m := (net.networkNumberAndMask n).2
  let ip := match ip.To4 with
    | some x => x
    | none => ip
  if ip.length ≠ nn.length then false
  else (List.range ip.length).all (fun i =>
    (nn.getD i 0) &&& (m.getD i 0) == (ip.getD i 0) &&& (m.getD i 0))

/-- Go `net.JoinHostPort`. -/
def net.JoinHostPort (host port : String) : String :=
  if (strings.IndexByte host ':').isSome then "[" ++ host ++ "]:" ++ port
  else host ++ ":" ++ port

/-- Go `net.SplitHostPort`. -/
def net.SplitHostPort (hostport : String) : Except error (String × String) :=
  match strings.LastIndexByte hostport ':' with
  | none => .error ⟨"address " ++ hostport ++ ": missing port in address"⟩
  | some i =>
    let split : Except error (String × Nat × Nat) :=
      if hostport.data.head? = some '[' then
        match strings.IndexByte hostport ']' with
        | none => .error ⟨"address " ++ hostport ++ ": missing ']' in address"⟩
        | some e =>
          if e + 1 = hostport.data.length then
            .error ⟨"address " ++ hostport ++ ": missing port in address"⟩
          else if e + 1 = i then
            .ok (slice hostport 1 e, 1, e + 1)
          else if hostport.data.get? (e + 1) = some ':' then
            .error ⟨"address " ++ hostport ++ ": too many colons in address"⟩
          else
            .error ⟨"address " ++ hostport ++ ": missing port in address"⟩
      else
        if (strings.IndexByte (slice hostport 0 i) ':').isSome then
          .error ⟨"address " ++ hostport ++ ": too many colons in address"⟩
        else .ok (slice hostport 0 i, 0, 0)
    match split with
    | .error err => .error err
    | .ok (host, j, k) =>
      if (strings.IndexByte (slice hostport j hostport.data.length) '[').isSome then
        .error ⟨"address " ++ hostport ++ ": unexpected '[' in address"⟩
      else if (strings.IndexByte (slice hostport k hostport.data.length) ']').isSome then
        .error ⟨"address " ++ hostport ++ ": unexpected ']' in address"⟩
      else .ok (host, slice hostport (i + 1) hostport.data.length)

/-- Go `url.validOptionalPort`: `port` is empty or `:` followed by digits. -/
def url.validOptionalPort (port : String) : Bool :=
  match port.data with
  | [] => true
  | c :: rest => c == ':' && rest.all (fun b => '0' ≤ b && b ≤ '9')

/-- Go `url.splitHostPort`: the host without its port and brackets, and the
port. -/
def url.splitHostPort (hostPort : String) : String × String :=
  let split : String × String :=
    match strings.LastIndexByte hostPort ':' with
    | some colon =>
      if url.validOptionalPort (slice hostPort colon hostPort.data.length) then
        (slice hostPort 0 colon, slice hostPort (colon + 1) hostPort.data.length)
      else (hostPort, "")
    | none => (hostPort, "")
  if strings.HasPrefix split.1 "[" && strings.HasSuffix split.1 "]" then
    (slice split.1 1 (split.1.data.length - 1), split.2)
  else split

/-- Go `(*url.URL).Hostname`. -/
def url.URL.Hostname (u : url.URL) : String :=
  (url.splitHostPort u.Host).1

/-- Go `(*url.URL).Port`. -/
def url.URL.Port (u : url.URL) : String :=
  (url.splitHostPort u.Host).2

/-- Functions of the Go standard library that `httpproxy` calls and that are
taken as parameters: `url.Parse`, `idnaASCII` (`none` when it fails),
`net.ParseIP` (`none` for `nil`), `net.ParseCIDR` (its `*IPNet`, `none` when it
fails) and `strings.ToLower`. -/
structure Stdlib where
  url_Parse : String → Except error url.URL
  idnaASCII : String → Option String
  net_ParseIP : String → Option net.IP
  net_ParseCIDR : String → Option net.IPNet
  strings_ToLower : String → String

/-- Go `httpproxy.portMap`: the default port of a scheme, `""` when it has none. -/
def httpproxy.portMap (scheme : String) : String :=
  if scheme = "http" then "80"
  else if scheme = "https" then "443"
  else if scheme = "socks5" then "1080"
  else ""

/-- Go `httpproxy.canonicalAddr`: `url.Host`, always with a `:port` suffix. -/
def httpproxy.canonicalAddr (S : Stdlib) (u : url.URL) : String :=
  let addr := match S.idnaASCII u.Hostname with
    | some v => v
    | none => u.Hostname
  let port := if u.Port = "" then httpproxy.portMap u.Scheme else u.Port
  net.JoinHostPort addr port

/-- Go `httpproxy.matcher`, with its four implementations. -/
inductive httpproxy.matcher where
  | allMatch
  | cidrMatch (cidr : net.IPNet)
  | ipMatch (ip : net.IP) (port : String)
  | domainMatch (host : String) (port : String) (matchHost : Bool)
  deriving DecidableEq, Repr

/-- Go `matcher.match`: whether the matcher excludes `host:port`, whose host
parses to `ip` (`[]` when it is no IP address). -/
def httpproxy.matcher.matchAddr : httpproxy.matcher → String → String → net.IP → Bool
  | allMatch, _, _, _ => true
  | cidrMatch cidr, _, _, ip => cidr.Contains ip
  | ipMatch mip mport, _, port, ip =>
    if mip.Equal ip then mport == "" || mport == port else false
  | domainMatch mhost mport matchHost, host, port, _ =>
    if strings.HasSuffix host mhost ||
        (matchHost && host == slice mhost 1 mhost.data.length) then
      mport == "" || mport == port
    else false

/-- Go `httpproxy.config`: the parsed configuration. -/
structure httpproxy.config where
  Config : httpproxy.Config
  httpsProxy : Option url.URL
  httpProxy : Option url.URL
  ipMatchers : List httpproxy.matcher
  domainMatchers : List httpproxy.matcher

/-- Go `httpproxy.parseProxy`: `ok none` for `(nil, nil)`. The text of the
error is the one of `fmt.Errorf("invalid proxy address %q: %v", proxy, err)`
without the escapes of `%q`. -/
def httpproxy.parseProxy (S : Stdlib) (proxy : String) : Except error (Option url.URL) :=
  if proxy = "" then .ok none
  else
    match S.url_Parse proxy with
    | .ok proxyURL =>
      if proxyURL.Scheme = "" || proxyURL.Host = "" then
        match S.url_Parse ("http://" ++ proxy) with
        | .ok proxyURL2 => .ok (some proxyURL2)
        | .error _ => .ok (some proxyURL)
      else .ok (some proxyURL)
    | .error err =>
      match S.url_Parse ("http://" ++ proxy) with
      | .ok proxyURL2 => .ok (some proxyURL2)
      | .error _ =>
        .error (fmt.Errorf ("invalid proxy address \"" ++ proxy ++ "\": " ++ err.msg))

/-- The part of the `NoProxy` loop of Go `(*httpproxy.config).init` that comes
after the `*` test: the matchers with the one of entry `p` appended, when the
entry has one. -/
def httpproxy.config.initEntry (S : Stdlib) (p : String)
    (ipMatchers domainMatchers : List httpproxy.matcher) :
    List httpproxy.matcher × List httpproxy.matcher :=
  match S.net_ParseCIDR p with
  | some pnet => (ipMatchers ++ [httpproxy.matcher.cidrMatch pnet], domainMatchers)
  | none =>
    let hostPort : Option (String × String) :=
      match net.SplitHostPort p with
      | .ok (phost, pport) =>
        if len phost == 0 then none
        else if phost.data.head? = some '[' && phost.data.getLast? = some ']' then
          some (slice phost 1 (phost.data.length - 1), pport)
        else some (phost, pport)
      | .error _ => some (p, "")
    match hostPort with
    | none => (ipMatchers, domainMatchers)
    | some (phost, pport) =>
      match S.net_ParseIP phost with
      | some pip => (ipMatchers ++ [httpproxy.matcher.ipMatch pip pport], domainMatchers)
      | none =>
        if len phost == 0 then (ipMatchers, domainMatchers)
        else
          let phost := if strings.HasPrefix phost "*." then slice phost 1 phost.data.length
            else phost
          let matchHost := phost.data.head? ≠ some '.'
          let phost := if matchHost then "." ++ phost else phost
          let phost := match S.idnaASCII phost with
            | some v => v
            | none => phost
          (ipMatchers, domainMatchers ++ [httpproxy.matcher.domainMatch phost pport matchHost])

/-- The `NoProxy` loop of Go `(*httpproxy.config).init` over the entries of
`strings.Split(c.NoProxy, ",")`. -/
def httpproxy.config.initNoProxy (S : Stdlib) :
    List String → List httpproxy.matcher → List httpproxy.matcher →
      List httpproxy.matcher × List httpproxy.matcher
  | [], ipMatchers, domainMatchers => (ipMatchers, domainMatchers)
  | p :: rest, ipMatchers, domainMatchers =>
    let p := S.strings_ToLower (strings.TrimSpace p)
    if len p == 0 then httpproxy.config.initNoProxy S rest ipMatchers domainMatchers
    else if p = "*" then ([httpproxy.matcher.allMatch], [httpproxy.matcher.allMatch])
    else
      httpproxy.config.initNoProxy S rest (httpproxy.config.initEntry S p ipMatchers domainMatchers).1
        (httpproxy.config.initEntry S p ipMatchers domainMatchers).2

/-- Go `(*httpproxy.config).init`, applied to the configuration `c`: a proxy
value that does not parse leaves the parsed proxy `nil`. -/
def httpproxy.config.init (S : Stdlib) (c : httpproxy.Config) : httpproxy.config :=
  { Config := c
    httpProxy := match httpproxy.parseProxy S c.HTTPProxy with
      | .ok parsed => parsed
      | .error _ => none
    httpsProxy := match httpproxy.parseProxy S c.HTTPSProxy with
      | .ok parsed => parsed
      | .error _ => none
    ipMatchers := (httpproxy.config.initNoProxy S (strings.Split c.NoProxy ',') [] []).1
    domainMatchers := (httpproxy.config.initNoProxy S (strings.Split c.NoProxy ',') [] []).2 }

/-- Go `(*httpproxy.config).useProxy`: whether requests to `addr` should use a
proxy. -/
def httpproxy.config.useProxy (S : Stdlib) (cfg : httpproxy.config) (addr : String) : Bool :=
  if len addr == 0 then true
  else
    match net.SplitHostPort addr with
    | .error _ => false
    | .ok (host, port) =>
      if host = "localhost" then false
      else
        let ip := S.net_ParseIP host
        if (match ip with
            | some ip => ip.IsLoopback
            | none => false) then false
        else
          let addr := S.strings_ToLower (strings.TrimSpace host)
          if (match ip with
              | some ip => cfg.ipMatchers.any (fun m => m.matchAddr addr port ip)
              | none => false) then false
          else if cfg.domainMatchers.any (fun m => m.matchAddr addr port (ip.getD [])) then false
          else true

/-- The end of Go `(*httpproxy.config).proxyForURL`, after `proxy` is chosen:
no proxy when `proxy` is `nil` or `useProxy` says no, else `proxy`. -/
def httpproxy.config.proxyOrDirect (S : Stdlib) (cfg : httpproxy.config) (reqURL : url.URL)
    (proxy : Option url.URL) : ProxyResult :=
  match proxy with
  | none => (none, none)
  | some proxy =>
    if !httpproxy.config.useProxy S cfg (httpproxy.canonicalAddr S reqURL) then (none, none)
    else (some proxy, none)

/-- Go `(*httpproxy.config).proxyForURL`. -/
def httpproxy.config.proxyForURL (S : Stdlib) (cfg : httpproxy.config) (reqURL : url.URL) :
    ProxyResult :=
  if reqURL.Scheme = "https" then
    httpproxy.config.proxyOrDirect S cfg reqURL cfg.httpsProxy
  else if reqURL.Scheme = "http" then
    if cfg.httpProxy.isSome && cfg.Config.CGI then
      (none, some ⟨"refusing to use HTTP_PROXY value in CGI environment; " ++
        "see golang.org/s/cgihttpproxy"⟩)
    else httpproxy.config.proxyOrDirect S cfg reqURL cfg.httpProxy
  else httpproxy.config.proxyOrDirect S cfg reqURL none

/-- Go `(*httpproxy.Config).ProxyFunc`, applied to the URL of a request. -/
def httpproxy.Config.ProxyFunc (S : Stdlib) (cfg : httpproxy.Config) (reqURL : url.URL) :
    ProxyResult :=
  httpproxy.config.proxyForURL S (httpproxy.config.init S cfg) reqURL

/-! ## External package `k8s.io/apimachinery/pkg/util/net` -/

/-- Go `knet.NewProxierWithNoProxyCIDR`, with `os.Getenv` as the argument
`Getenv` (`""` for an unset variable): the CIDR entries of `NO_PROXY`, or of
`no_proxy` when `NO_PROXY` is empty, are read when the wrapper is built; with
no such entry the wrapper is the delegate, otherwise a request whose host is an
IP address inside one of them gets no proxy and any other request goes to the
delegate. -/
def knet.NewProxierWithNoProxyCIDR (S : Stdlib) (Getenv : String → String)
    (delegate : http.Request → ProxyResult) : http.Request → ProxyResult :=
  let noProxyEnv := if Getenv "NO_PROXY" = "" then Getenv "no_proxy" else Getenv "NO_PROXY"
  let noProxyRules := strings.Split noProxyEnv ','
  let cidrs := noProxyRules.filterMap S.net_ParseCIDR
  if cidrs.length = 0 then delegate
  else fun req =>
    match S.net_ParseIP req.URL.Hostname with
    | none => delegate req
    | some ip =>
      if cidrs.any (fun cidr => cidr.Contains ip) then (none, none)
      else delegate req

/-! ## Witness data -/

/-- An authorizer whose secret configuration holds `token`, with no cluster
configuration and an environment resolver that never proxies. -/
def authorizerWithToken (token : String) : Authorizer :=
  { secretConfigurator := { Config := { Token := token } }
    configurator := { Config := none }
    proxyFromEnvironment := fun _ => (none, none) }

/-- A request with a `nil` header map. -/
def requestWithoutHeader : http.Request :=
  { Header := none
    URL := { Scheme := "https", Host := "console.redhat.com", Path := "/api" } }

/-- A request that already carries two `Authorization` values and an `Accept`
header. -/
def requestWithAuthorization : http.Request :=
  { Header := some (fun k =>
      if k = "Authorization" then some ["Basic b2xk", "Bearer stale"]
      else if k = "Accept" then some ["application/json"]
      else none)
    URL := { Scheme := "https", Host := "console.redhat.com", Path := "/api" } }

/-- An authorizer with the cluster configuration `config` and the environment
resolver `resolver`. -/
def authorizerWithProxy (config : Option config.InsightsConfiguration)
    (resolver : http.Request → ProxyResult) : Authorizer :=
  { secretConfigurator := { Config := { Token := "xyz" } }
    configurator := { Config := config }
    proxyFromEnvironment := resolver }

/-- An environment resolver that sends every request to `http://envproxy:3128`. -/
def resolverToEnvProxy : http.Request → ProxyResult :=
  fun _ => (some { Scheme := "http", Host := "envproxy:3128", Path := "" }, none)

/-- An environment resolver that never proxies. -/
def resolverDirect : http.Request → ProxyResult :=
  fun _ => (none, none)

/-- A stand-in for the external functions: the proxy function sends `http`
requests to the host named by `HTTPProxy` and other requests to the host named
by `HTTPSProxy`; the wrapper leaves its delegate as it is. -/
def externalsPlain : Externals :=
  { ProxyFromEnvironment := resolverDirect
    ProxyFunc := fun proxyConfig reqURL =>
      if reqURL.Scheme = "http" then
        (some { Scheme := "http", Host := proxyConfig.HTTPProxy, Path := "" }, none)
      else
        (some { Scheme := "http", Host := proxyConfig.HTTPSProxy, Path := "" }, none)
    NewProxierWithNoProxyCIDR := fun delegate => delegate }

/-- A second stand-in, with the same proxy function as `externalsPlain`, another
environment resolver, and a wrapper that never proxies. -/
def externalsOther : Externals :=
  { ProxyFromEnvironment := resolverToEnvProxy
    ProxyFunc := externalsPlain.ProxyFunc
    NewProxierWithNoProxyCIDR := fun _ _ => (none, none) }

/-- A cluster configuration that sets `HTTPProxy` and `NoProxy`. -/
def configWithProxy : config.InsightsConfiguration :=
  { Proxy := { HTTPProxy := "http://proxy1:8080", HTTPSProxy := "", NoProxy := "10.0.0.0/8" } }

/-- A cluster configuration that sets no proxy value. -/
def configWithoutProxy : config.InsightsConfiguration :=
  { Proxy := { HTTPProxy := "", HTTPSProxy := "", NoProxy := "" } }

/-- The value of a decimal field of an IPv4 address: one to three digits with
no leading zero, at most 255. -/
def standIn.decimalByte (field : List Char) : Option Nat :=
  if field = [] ∨ 3 < field.length ∨ ¬ field.all Char.isDigit ∨
      (1 < field.length ∧ field.head? = some '0') then none
  else if 255 < field.foldl (fun n c => 10 * n + (c.toNat - 48)) 0 then none
  else some (field.foldl (fun n c => 10 * n + (c.toNat - 48)) 0)

/-- The four bytes of an IPv4 address in dotted decimal. -/
def standIn.parseIPv4 (s : String) : Option net.IP :=
  match (s.data.splitOn '.').map standIn.decimalByte with
  | [some a, some b, some c, some d] => some [a, b, c, d]
  | _ => none

/-- Stand-in for `net.ParseIP` on IPv4 addresses: the 16-byte form `net.IPv4`
builds. -/
def standIn.ParseIP (s : String) : Option net.IP :=
  match standIn.parseIPv4 s with
  | some ip4 => some ([0, 0, 0, 0, 0, 0, 0, 0, 0, 0, 0xff, 0xff] ++ ip4)
  | none => none

/-- Go `net.CIDRMask(ones, 32)`. -/
def standIn.CIDRMask (ones : Nat) : List Nat :=
  (List.range 4).map (fun i => 0xff - (0xff >>> (min 8 (ones - 8 * i))))

/-- Stand-in for `net.ParseCIDR` on IPv4 networks `a.b.c.d/n`: the masked
4-byte network number and the 4-byte mask. -/
def standIn.ParseCIDR (s : String) : Option net.IPNet :=
  match s.data.splitOn '/' with
  | [addr, bits] =>
    match standIn.parseIPv4 ⟨addr⟩, standIn.decimalByte bits with
    | some ip4, some ones =>
      if 32 < ones then none
      else some
        { IP := List.zipWith (fun b m => b &&& m) ip4 (standIn.CIDRMask ones)
          Mask := standIn.CIDRMask ones }
    | _, _ => none
  | _ => none

/-- Go `url.getScheme` on the characters not yet read, after the characters
`seen`: the scheme before the first `:` and what follows it, no scheme when
another character than a letter, a digit, `+`, `-` or `.` comes first, `none`
for the error of a leading `:`. -/
def standIn.getScheme : List Char → List Char → Option (List Char × List Char)
  | seen, [] => some ([], seen)
  | seen, c :: rest =>
    if c.isAlpha then standIn.getScheme (seen ++ [c]) rest
    else if c.isDigit || c == '+' || c == '-' || c == '.' then
      if seen = [] then some ([], c :: rest) else standIn.getScheme (seen ++ [c]) rest
    else if c == ':' then
      if seen = [] then none else some (seen, rest)
    else some ([], seen ++ c :: rest)

/-- Stand-in for `url.Parse` on strings without user information, query or
fragment. As `url.Parse` it rejects a string that holds an ASCII control
character, a leading `:`, and a first path segment with a colon when there is
no scheme; it reads `scheme:opaque` (the opaque part is dropped),
`scheme://host/path` and a plain path. The host is not validated. -/
def standIn.Parse (rawURL : String) : Except error url.URL :=
  if rawURL.data.any (fun c => c.toNat < 0x20 || c.toNat == 0x7f) then
    .error ⟨"parse \"" ++ rawURL ++ "\": net/url: invalid control character in URL"⟩
  else
    match standIn.getScheme [] rawURL.data with
    | none => .error ⟨"parse \"" ++ rawURL ++ "\": missing protocol scheme"⟩
    | some (scheme, rest) =>
      if rest.head? ≠ some '/' then
        if scheme ≠ [] then
          .ok { Scheme := ⟨scheme.map Char.toLower⟩, Host := "", Path := "" }
        else if ':' ∈ rest.takeWhile (fun c => c != '/') then
          .error ⟨"parse \"" ++ rawURL ++
            "\": first path segment in URL cannot contain colon"⟩
        else .ok { Scheme := "", Host := "", Path := ⟨rest⟩ }
      else if ['/', '/'].isPrefixOf rest &&
          (scheme ≠ [] || (['/', '/', '/'].isPrefixOf rest == false)) then
        .ok { Scheme := ⟨scheme.map Char.toLower⟩
              Host := ⟨(rest.drop 2).takeWhile (fun c => c != '/')⟩
              Path := ⟨(rest.drop 2).dropWhile (fun c => c != '/')⟩ }
      else .ok { Scheme := ⟨scheme.map Char.toLower⟩, Host := "", Path := ⟨rest⟩ }

/-- A stand-in for the standard library functions `httpproxy` calls, for URLs
of the shape `scheme://host/path`, IPv4 addresses in dotted decimal and ASCII
host names; on the strings it is applied to below it computes what the Go
functions compute. -/
def stdlibIPv4 : Stdlib :=
  { url_Parse := standIn.Parse
    idnaASCII := fun v => if v.data.all (fun c => c.toNat < 0x80) then some v else none
    net_ParseIP := standIn.ParseIP
    net_ParseCIDR := standIn.ParseCIDR
    strings_ToLower := fun s => ⟨s.data.map Char.toLower⟩ }

/-- External functions whose `ProxyFunc` is the one of `httpproxy` over the
standard library functions `S`. -/
def externalsWith (S : Stdlib) : Externals :=
  { ProxyFromEnvironment := resolverDirect
    ProxyFunc := httpproxy.Config.ProxyFunc S
    NewProxierWithNoProxyCIDR := fun delegate => delegate }

/-- A cluster configuration whose `HTTPProxy` ends in a line feed, which
`url.Parse` rejects. -/
def configWithBadProxy : config.InsightsConfiguration :=
  { Proxy := { HTTPProxy := "http://proxy1:8080\n", HTTPSProxy := "", NoProxy := "" } }

/-- A cluster configuration whose `HTTPProxy` has no scheme: `url.Parse`
rejects `10.0.0.1:3128` and accepts `http://10.0.0.1:3128`. -/
def configWithBareProxy : config.InsightsConfiguration :=
  { Proxy := { HTTPProxy := "10.0.0.1:3128", HTTPSProxy := "", NoProxy := "" } }

/-- A process environment that sets `NO_PROXY` to `10.0.0.0/8` and nothing
else. -/
def getenvNoProxyCIDR : String → String :=
  fun key => if key = "NO_PROXY" then "10.0.0.0/8" else ""

/-- A process environment that sets `NO_PROXY` to `10.0.0.0/8` and
`HTTP_PROXY` to `http://other:3128`. -/
def getenvNoProxyCIDRAndProxy : String → String :=
  fun key => if key = "NO_PROXY" then "10.0.0.0/8"
    else if key = "HTTP_PROXY" then "http://other:3128" else ""

/-- A process environment that sets no variable. -/
def getenvNothing : String → String :=
  fun _ => ""

/-- External functions as they are when the process environment is `Getenv`:
the proxy function of `httpproxy` and the wrapper of `knet`, over the standard
library functions `S`. -/
def externalsAt (S : Stdlib) (Getenv : String → String) : Externals :=
  { ProxyFromEnvironment := resolverDirect
    ProxyFunc := httpproxy.Config.ProxyFunc S
    NewProxierWithNoProxyCIDR := knet.NewProxierWithNoProxyCIDR S Getenv }

/-- A request for `scheme://host/`. -/
def requestTo (scheme host : String) : http.Request :=
  { Header := none
    URL := { Scheme := scheme, Host := host, Path := "/" } }

/-! ## Strings -/

theorem len_eq_zero_iff (s : String) : len s = 0 ↔ s = "" := by
  cases s with
  | mk data =>
    cases data with
    | nil => simp [len, String.utf8ByteSize, String.utf8ByteSize.go]
    | cons c cs =>
      have hc := c.utf8Size_pos
      have hne : (String.mk (c :: cs)) ≠ "" := by
        intro h
        have := congrArg String.data h
        simp at this
      simp only [len, String.utf8ByteSize, String.utf8ByteSize.go, hne, iff_false]
      omega

theorem len_pos_iff (s : String) : len s > 0 ↔ s ≠ "" := by
  rw [Ne, ← len_eq_zero_iff]; omega

theorem data_eq_nil_iff (s : String) : s.data = [] ↔ s = "" := by
  cases s with
  | mk data =>
    constructor
    · intro h; simp at h; subst h; rfl
    · intro h; exact congrArg String.data h

theorem Contains_char (s : String) (c : Char) :
    strings.Contains s (String.singleton c) = true ↔ c ∈ s.data := by
  simp only [strings.Contains, decide_eq_true_eq]
  show [c] <:+: s.data ↔ c ∈ s.data
  constructor
  · rintro ⟨l, r, h⟩
    rw [← h]; simp
  · intro h
    obtain ⟨l, r, h⟩ := List.append_of_mem h
    exact ⟨l, r, by simp [h]⟩

theorem Contains_LF (s : String) : strings.Contains s "\n" = true ↔ '\n' ∈ s.data :=
  Contains_char s '\n'

theorem Contains_CR (s : String) : strings.Contains s "\r" = true ↔ '\r' ∈ s.data :=
  Contains_char s '\r'

theorem TrimSpace_data (s : String) :
    (strings.TrimSpace s).data =
      (s.data.dropWhile unicode.IsSpace).rdropWhile unicode.IsSpace :=
  rfl

/-- A string of white space only trims to the empty string. -/
theorem TrimSpace_of_all_space (s : String) (h : ∀ c ∈ s.data, unicode.IsSpace c = true) :
    strings.TrimSpace s = "" := by
  rw [← data_eq_nil_iff, TrimSpace_data, (List.dropWhile_eq_nil_iff).2 h]
  simp

theorem rdropWhile_append_rtakeWhile {α : Type} (p : α → Bool) (l : List α) :
    l.rdropWhile p ++ l.rtakeWhile p = l := by
  rw [List.rdropWhile, List.rtakeWhile, ← List.reverse_append,
    List.takeWhile_append_dropWhile, List.reverse_reverse]

/-- What `strings.TrimSpace` removes: `s` is its trimmed form between a run of
white space on the left and one on the right, and the trimmed form neither
starts nor ends with white space. -/
theorem TrimSpace_spec (s : String) :
    ∃ l r : List Char, s.data = l ++ (strings.TrimSpace s).data ++ r ∧
      (∀ c ∈ l, unicode.IsSpace c = true) ∧ (∀ c ∈ r, unicode.IsSpace c = true) ∧
      (∀ c, (strings.TrimSpace s).data.head? = some c → unicode.IsSpace c = false) ∧
      (∀ c, (strings.TrimSpace s).data.getLast? = some c → unicode.IsSpace c = false) := by
  refine ⟨s.data.takeWhile unicode.IsSpace,
    (s.data.dropWhile unicode.IsSpace).rtakeWhile unicode.IsSpace, ?_, ?_, ?_, ?_, ?_⟩
  · rw [TrimSpace_data, List.append_assoc, rdropWhile_append_rtakeWhile,
      List.takeWhile_append_dropWhile]
  · intro c hc
    exact List.mem_takeWhile_imp hc
  · intro c hc
    exact List.mem_rtakeWhile_imp hc
  · intro c hc
    rw [TrimSpace_data] at hc
    have hpre : (s.data.dropWhile unicode.IsSpace).rdropWhile unicode.IsSpace <+:
        s.data.dropWhile unicode.IsSpace := List.rdropWhile_prefix _ _
    obtain ⟨t, ht⟩ := hpre
    have hhead : (s.data.dropWhile unicode.IsSpace).head? = some c := by
      rw [← ht, List.head?_append_of_ne_nil _ (by intro h0; rw [h0] at hc; simp at hc)]
      exact hc
    have := List.head?_dropWhile_not unicode.IsSpace s.data
    rw [hhead] at this
    simpa using this
  · intro c hc
    rw [TrimSpace_data] at hc
    by_cases hnil : (s.data.dropWhile unicode.IsSpace).rdropWhile unicode.IsSpace = []
    · rw [hnil] at hc; simp at hc
    · have hlast := List.rdropWhile_last_not unicode.IsSpace _ hnil
      rw [List.getLast?_eq_getLast _ hnil] at hc
      injection hc with hc
      rw [hc] at hlast
      simpa using hlast

/-! ## `Token` -/

/-- The four outcomes of `Token`, by the raw token and its trimmed form. -/
theorem Token_cases (a : Authorizer) :
    a.Token =
      if a.secretConfigurator.Config.Token = "" then
        ("", some (fmt.Errorf "cluster authorization token is not configured"))
      else if '\n' ∈ (strings.TrimSpace a.secretConfigurator.Config.Token).data ∨
          '\r' ∈ (strings.TrimSpace a.secretConfigurator.Config.Token).data then
        ("", some (fmt.Errorf "cluster authorization token is not valid: contains newlines"))
      else if strings.TrimSpace a.secretConfigurator.Config.Token = "" then
        ("", some (fmt.Errorf "cluster authorization token is empty"))
      else
        (strings.TrimSpace a.secretConfigurator.Config.Token, none) := by
  unfold Authorizer.Token
  dsimp only
  by_cases h0 : a.secretConfigurator.Config.Token = ""
  · have hlen : ¬ len a.secretConfigurator.Config.Token > 0 := by
      rw [len_pos_iff]; exact not_not.2 h0
    rw [if_neg hlen, if_pos h0]
  · have hlen : len a.secretConfigurator.Config.Token > 0 := (len_pos_iff _).2 h0
    rw [if_pos hlen, if_neg h0]
    by_cases hnl : '\n' ∈ (strings.TrimSpace a.secretConfigurator.Config.Token).data ∨
        '\r' ∈ (strings.TrimSpace a.secretConfigurator.Config.Token).data
    · have hc : (strings.Contains (strings.TrimSpace a.secretConfigurator.Config.Token) "\n" ||
          strings.Contains (strings.TrimSpace a.secretConfigurator.Config.Token) "\r") = true := by
        rw [Bool.or_eq_true, Contains_LF, Contains_CR]; exact hnl
      rw [if_pos hc, if_pos hnl]
    · have hc : ¬ (strings.Contains (strings.TrimSpace a.secretConfigurator.Config.Token) "\n" ||
          strings.Contains (strings.TrimSpace a.secretConfigurator.Config.Token) "\r") = true := by
        rw [Bool.or_eq_true, Contains_LF, Contains_CR]; exact hnl
      rw [if_neg hc, if_neg hnl]
      by_cases ht : strings.TrimSpace a.secretConfigurator.Config.Token = ""
      · have hl : (len (strings.TrimSpace a.secretConfigurator.Config.Token) == 0) = true := by
          rw [beq_iff_eq, len_eq_zero_iff]; exact ht
        rw [if_pos hl, if_pos ht]
      · have hl : ¬ (len (strings.TrimSpace a.secretConfigurator.Config.Token) == 0) = true := by
          rw [beq_iff_eq, len_eq_zero_iff]; exact ht
        rw [if_neg hl, if_neg ht]

/-- C1: a non-empty token whose trimmed form is non-empty and free of carriage
returns and line feeds makes `Token` succeed with exactly the trimmed form,
which is the raw token without its leading and trailing white space. -/
theorem Token_returns_trimmed (a : Authorizer)
    (hne : a.secretConfigurator.Config.Token ≠ "")
    (htrim : strings.TrimSpace a.secretConfigurator.Config.Token ≠ "")
    (hlf : '\n' ∉ (strings.TrimSpace a.secretConfigurator.Config.Token).data)
    (hcr : '\r' ∉ (strings.TrimSpace a.secretConfigurator.Config.Token).data) :
    a.Token = (strings.TrimSpace a.secretConfigurator.Config.Token, none) ∧
      ∃ l r : List Char,
        a.secretConfigurator.Config.Token.data = l ++ (a.Token).1.data ++ r ∧
        (∀ c ∈ l, unicode.IsSpace c = true) ∧ (∀ c ∈ r, unicode.IsSpace c = true) ∧
        (∀ c, (a.Token).1.data.head? = some c → unicode.IsSpace c = false) ∧
        (∀ c, (a.Token).1.data.getLast? = some c → unicode.IsSpace c = false) := by
  have hT : a.Token = (strings.TrimSpace a.secretConfigurator.Config.Token, none) := by
    rw [Token_cases, if_neg hne, if_neg (by tauto), if_neg htrim]
  refine ⟨hT, ?_⟩
  rw [hT]
  exact TrimSpace_spec _

/-- Witness of C1 on the token `"  abc def\t\n"`. -/
theorem Token_returns_trimmed_witness :
    (authorizerWithToken "  abc def\t\n").Token = ("abc def", none) :=
  (Token_returns_trimmed (authorizerWithToken "  abc def\t\n")
    (by decide) (by decide) (by decide) (by decide)).1

/-- C2: `Token` fails with the "not configured" error exactly when the raw
token has length zero, that is, exactly when the raw token is the empty
string. -/
theorem Token_not_configured_iff (a : Authorizer) :
    ((a.Token).2 = some (fmt.Errorf "cluster authorization token is not configured") ↔
        len a.secretConfigurator.Config.Token = 0) ∧
      (len a.secretConfigurator.Config.Token = 0 ↔ a.secretConfigurator.Config.Token = "") := by
  refine ⟨?_, len_eq_zero_iff _⟩
  rw [len_eq_zero_iff, Token_cases]
  constructor
  · intro h
    by_contra h0
    rw [if_neg h0] at h
    split_ifs at h <;> simp [fmt.Errorf] at h
  · intro h0
    rw [if_pos h0]

/-- C3: a non-empty token of white space only makes `Token` fail with the
"empty" error, which is neither the "not configured" nor the "contains
newlines" error. -/
theorem Token_whitespace_only (a : Authorizer)
    (hne : a.secretConfigurator.Config.Token ≠ "")
    (hsp : ∀ c ∈ a.secretConfigurator.Config.Token.data, unicode.IsSpace c = true) :
    a.Token = ("", some (fmt.Errorf "cluster authorization token is empty")) ∧
      (a.Token).2 ≠ some (fmt.Errorf "cluster authorization token is not configured") ∧
      (a.Token).2 ≠
        some (fmt.Errorf "cluster authorization token is not valid: contains newlines") := by
  have ht := TrimSpace_of_all_space _ hsp
  have hT : a.Token = ("", some (fmt.Errorf "cluster authorization token is empty")) := by
    rw [Token_cases, if_neg hne, ht, if_neg (by simp), if_pos rfl]
  rw [hT]
  refine ⟨rfl, ?_, ?_⟩ <;> simp [fmt.Errorf]

/-- Witness of C3 on the tokens `"   "` and `"\n\n"`. -/
theorem Token_whitespace_only_witness :
    (authorizerWithToken "   ").Token =
        ("", some (fmt.Errorf "cluster authorization token is empty")) ∧
      (authorizerWithToken "\n\n").Token =
        ("", some (fmt.Errorf "cluster authorization token is empty")) :=
  ⟨(Token_whitespace_only (authorizerWithToken "   ") (by decide) (by decide)).1,
    (Token_whitespace_only (authorizerWithToken "\n\n") (by decide) (by decide)).1⟩

/-- C4: a token whose trimmed form holds a carriage return or a line feed makes
`Token` fail with the "contains newlines" error and the empty string as its
value. -/
theorem Token_newline_in_trimmed (a : Authorizer)
    (hnl : '\n' ∈ (strings.TrimSpace a.secretConfigurator.Config.Token).data ∨
      '\r' ∈ (strings.TrimSpace a.secretConfigurator.Config.Token).data) :
    a.Token =
      ("", some (fmt.Errorf "cluster authorization token is not valid: contains newlines")) := by
  have hne : a.secretConfigurator.Config.Token ≠ "" := by
    intro h0
    rw [h0] at hnl
    revert hnl
    decide
  rw [Token_cases, if_neg hne, if_pos hnl]

/-- Witness of C4 on the tokens `"abc\ndef"` and `"  abc\rdef \n"`. -/
theorem Token_newline_in_trimmed_witness :
    (authorizerWithToken "abc\ndef").Token =
        ("", some (fmt.Errorf "cluster authorization token is not valid: contains newlines")) ∧
      (authorizerWithToken "  abc\rdef \n").Token =
        ("", some (fmt.Errorf "cluster authorization token is not valid: contains newlines")) :=
  ⟨Token_newline_in_trimmed (authorizerWithToken "abc\ndef") (by decide),
    Token_newline_in_trimmed (authorizerWithToken "  abc\rdef \n") (by decide)⟩

/-! ## `Authorize` -/

theorem CanonicalMIMEHeaderKey_Authorization :
    textproto.CanonicalMIMEHeaderKey "Authorization" = "Authorization" := by
  decide

/-- C5: when `Token` succeeds with `t`, `Authorize` returns no error and leaves
the request with exactly one `Authorization` value, `"Bearer "` followed by
`t`, whatever the header map held before and also when it was `nil`. -/
theorem Authorize_sets_bearer (a : Authorizer) (req : http.Request) (t : String)
    (hT : a.Token = (t, none)) :
    (a.Authorize req).2 = none ∧
      (a.Authorize req).1.values "Authorization" = some ["Bearer " ++ t] := by
  unfold Authorizer.Authorize
  rw [hT]
  simp [http.Request.values, http.Header.Set, CanonicalMIMEHeaderKey_Authorization]

/-- Witness of C5 with the token `"xyz"`, on a request that carries two
`Authorization` values and on a request with a `nil` header map. -/
theorem Authorize_sets_bearer_witness :
    requestWithAuthorization.values "Authorization" = some ["Basic b2xk", "Bearer stale"] ∧
      ((authorizerWithToken "xyz").Authorize requestWithAuthorization).1.values "Authorization" =
        some ["Bearer xyz"] ∧
      ((authorizerWithToken "xyz").Authorize requestWithoutHeader).1.values "Authorization" =
        some ["Bearer xyz"] :=
  ⟨by decide,
    (Authorize_sets_bearer (authorizerWithToken "xyz") requestWithAuthorization "xyz"
      (by decide)).2,
    (Authorize_sets_bearer (authorizerWithToken "xyz") requestWithoutHeader "xyz"
      (by decide)).2⟩

/-- C6: when `Token` fails, `Authorize` returns the error of `Token` and every
header name keeps its values; the header map is the one the request had, or
the empty map when it was `nil`, and the URL is untouched. -/
theorem Authorize_failure_keeps_headers (a : Authorizer) (req : http.Request)
    (hfail : (a.Token).2 ≠ none) :
    (a.Authorize req).2 = (a.Token).2 ∧
      (∀ key, (a.Authorize req).1.values key = req.values key) ∧
      (a.Authorize req).1.Header = some (req.Header.getD http.Header.make) ∧
      (a.Authorize req).1.URL = req.URL := by
  unfold Authorizer.Authorize
  rcases hT : a.Token with ⟨v, e⟩
  rw [hT] at hfail
  cases e with
  | none => exact absurd rfl hfail
  | some err =>
    cases req with
    | mk Header URL =>
      cases Header with
      | none => simp [http.Request.values, http.Header.make]
      | some h => simp [http.Request.values]

/-- Witness of C6 with the token `"abc\ndef"`, on a request that carries two
`Authorization` values. -/
theorem Authorize_failure_keeps_headers_witness :
    ((authorizerWithToken "abc\ndef").Authorize requestWithAuthorization).2 =
        some (fmt.Errorf "cluster authorization token is not valid: contains newlines") ∧
      ((authorizerWithToken "abc\ndef").Authorize requestWithAuthorization).1.values
        "Authorization" = some ["Basic b2xk", "Bearer stale"] :=
  ⟨(Authorize_failure_keeps_headers (authorizerWithToken "abc\ndef") requestWithAuthorization
      (by decide)).1,
    (Authorize_failure_keeps_headers (authorizerWithToken "abc\ndef") requestWithAuthorization
      (by decide)).2.1 "Authorization"⟩

/-! ## `NewSystemOrConfiguredProxy` -/

/-- The guard of the explicit-configuration branch, in terms of empty strings. -/
theorem proxy_guard_iff (c : config.InsightsConfiguration) :
    (decide (len c.Proxy.HTTPProxy > 0) || decide (len c.Proxy.HTTPSProxy > 0) ||
        decide (len c.Proxy.NoProxy > 0)) = true ↔
      (c.Proxy.HTTPProxy ≠ "" ∨ c.Proxy.HTTPSProxy ≠ "" ∨ c.Proxy.NoProxy ≠ "") := by
  simp only [Bool.or_eq_true, decide_eq_true_eq, len_pos_iff, or_assoc]

/-- The selector of the explicit-configuration branch. -/
theorem NewSystemOrConfiguredProxy_of_set (a : Authorizer) (c : config.InsightsConfiguration)
    (hc : a.configurator.Config = some c)
    (hset : c.Proxy.HTTPProxy ≠ "" ∨ c.Proxy.HTTPSProxy ≠ "" ∨ c.Proxy.NoProxy ≠ "") :
    a.NewSystemOrConfiguredProxy =
      Proxier.configured
        { HTTPProxy := c.Proxy.HTTPProxy
          HTTPSProxy := c.Proxy.HTTPSProxy
          NoProxy := c.Proxy.NoProxy
          CGI := false } := by
  unfold Authorizer.NewSystemOrConfiguredProxy
  rw [hc]
  dsimp only
  rw [if_pos ((proxy_guard_iff c).2 hset)]

/-- The selector of the fallback branch. -/
theorem NewSystemOrConfiguredProxy_of_unset (a : Authorizer)
    (h : a.configurator.Config = none ∨
      ∃ c, a.configurator.Config = some c ∧
        c.Proxy.HTTPProxy = "" ∧ c.Proxy.HTTPSProxy = "" ∧ c.Proxy.NoProxy = "") :
    a.NewSystemOrConfiguredProxy = Proxier.system a.proxyFromEnvironment := by
  unfold Authorizer.NewSystemOrConfiguredProxy
  rcases h with h | ⟨c, hc, h1, h2, h3⟩
  · rw [h]
  · rw [hc]
    dsimp only
    rw [if_neg]
    rw [proxy_guard_iff]
    simp [h1, h2, h3]

/-- C7: `NewSystemOrConfiguredProxy` returns the closure of the
explicit-configuration branch exactly when the cluster configuration is not
`nil` and one of `HTTPProxy`, `HTTPSProxy`, `NoProxy` is non-empty; that
closure holds a proxy configuration with exactly these three values (`CGI`
unset) and applies its `ProxyFunc` to the URL of the request. -/
theorem NewSystemOrConfiguredProxy_explicit_iff (a : Authorizer) :
    ((∃ proxyConfig, a.NewSystemOrConfiguredProxy = Proxier.configured proxyConfig) ↔
        ∃ c, a.configurator.Config = some c ∧
          (c.Proxy.HTTPProxy ≠ "" ∨ c.Proxy.HTTPSProxy ≠ "" ∨ c.Proxy.NoProxy ≠ "")) ∧
      ∀ c, a.configurator.Config = some c →
        (c.Proxy.HTTPProxy ≠ "" ∨ c.Proxy.HTTPSProxy ≠ "" ∨ c.Proxy.NoProxy ≠ "") →
        a.NewSystemOrConfiguredProxy =
            Proxier.configured
              { HTTPProxy := c.Proxy.HTTPProxy
                HTTPSProxy := c.Proxy.HTTPSProxy
                NoProxy := c.Proxy.NoProxy
                CGI := false } ∧
          ∀ (E : Externals) (req : http.Request),
            a.NewSystemOrConfiguredProxy.call E req =
              E.ProxyFunc
                { HTTPProxy := c.Proxy.HTTPProxy
                  HTTPSProxy := c.Proxy.HTTPSProxy
                  NoProxy := c.Proxy.NoProxy
                  CGI := false } req.URL := by
  refine ⟨⟨?_, ?_⟩, ?_⟩
  · rintro ⟨proxyConfig, hp⟩
    by_contra hno
    have hunset : a.configurator.Config = none ∨
        ∃ c, a.configurator.Config = some c ∧
          c.Proxy.HTTPProxy = "" ∧ c.Proxy.HTTPSProxy = "" ∧ c.Proxy.NoProxy = "" := by
      cases hcfg : a.configurator.Config with
      | none => exact Or.inl rfl
      | some c =>
        refine Or.inr ⟨c, rfl, ?_⟩
        by_contra hne
        exact hno ⟨c, hcfg, by tauto⟩
    rw [NewSystemOrConfiguredProxy_of_unset a hunset] at hp
    exact Proxier.noConfusion hp
  · rintro ⟨c, hc, hset⟩
    exact ⟨_, NewSystemOrConfiguredProxy_of_set a c hc hset⟩
  · intro c hc hset
    refine ⟨NewSystemOrConfiguredProxy_of_set a c hc hset, ?_⟩
    intro E req
    rw [NewSystemOrConfiguredProxy_of_set a c hc hset]
    rfl

/-- Witness of C7 on the cluster configuration `HTTPProxy = "http://proxy1:8080"`,
`NoProxy = "10.0.0.0/8"`. -/
theorem NewSystemOrConfiguredProxy_explicit_iff_witness :
    (authorizerWithProxy (some configWithProxy) resolverToEnvProxy).NewSystemOrConfiguredProxy =
      Proxier.configured
        { HTTPProxy := "http://proxy1:8080", HTTPSProxy := "", NoProxy := "10.0.0.0/8",
          CGI := false } :=
  ((NewSystemOrConfiguredProxy_explicit_iff
    (authorizerWithProxy (some configWithProxy) resolverToEnvProxy)).2
      configWithProxy rfl (by decide)).1

/-- C8: with a cluster configuration that sets one of `HTTPProxy`, `HTTPSProxy`,
`NoProxy`, the returned selector holds no environment resolver and its result
on a request depends on neither the resolver stored in the authorizer nor the
environment-based external functions. -/
theorem NewSystemOrConfiguredProxy_ignores_environment (a₁ a₂ : Authorizer)
    (c : config.InsightsConfiguration)
    (h₁ : a₁.configurator.Config = some c) (h₂ : a₂.configurator.Config = some c)
    (hset : c.Proxy.HTTPProxy ≠ "" ∨ c.Proxy.HTTPSProxy ≠ "" ∨ c.Proxy.NoProxy ≠ "")
    (E₁ E₂ : Externals) (hfunc : E₁.ProxyFunc = E₂.ProxyFunc) (req : http.Request) :
    a₁.NewSystemOrConfiguredProxy = a₂.NewSystemOrConfiguredProxy ∧
      (∀ delegate, a₁.NewSystemOrConfiguredProxy ≠ Proxier.system delegate) ∧
      a₁.NewSystemOrConfiguredProxy.call E₁ req = a₂.NewSystemOrConfiguredProxy.call E₂ req := by
  rw [NewSystemOrConfiguredProxy_of_set a₁ c h₁ hset,
    NewSystemOrConfiguredProxy_of_set a₂ c h₂ hset]
  refine ⟨rfl, ?_, ?_⟩
  · intro delegate h
    exact Proxier.noConfusion h
  · simp only [Proxier.call, hfunc]

/-- Witness of C8: two authorizers with the configuration of
`configWithProxy`, one resolver proxying everything and one never proxying,
under two different environments. -/
theorem NewSystemOrConfiguredProxy_ignores_environment_witness :
    resolverToEnvProxy requestWithoutHeader ≠ resolverDirect requestWithoutHeader ∧
      (authorizerWithProxy (some configWithProxy) resolverToEnvProxy).NewSystemOrConfiguredProxy.call
          externalsPlain requestWithoutHeader =
        (authorizerWithProxy (some configWithProxy) resolverDirect).NewSystemOrConfiguredProxy.call
          externalsOther requestWithoutHeader :=
  ⟨by decide,
    (NewSystemOrConfiguredProxy_ignores_environment
      (authorizerWithProxy (some configWithProxy) resolverToEnvProxy)
      (authorizerWithProxy (some configWithProxy) resolverDirect)
      configWithProxy rfl rfl (by decide) externalsPlain externalsOther rfl
      requestWithoutHeader).2.2⟩

/-- C9: a `nil` cluster configuration and one whose `HTTPProxy`, `HTTPSProxy`
and `NoProxy` are all empty give the same selector, the no-proxy-CIDR wrapper
applied to the resolver stored in the authorizer, which after `New` is the
environment-based resolver of the platform. -/
theorem NewSystemOrConfiguredProxy_fallback (a : Authorizer)
    (h : a.configurator.Config = none ∨
      ∃ c, a.configurator.Config = some c ∧
        c.Proxy.HTTPProxy = "" ∧ c.Proxy.HTTPSProxy = "" ∧ c.Proxy.NoProxy = "") :
    a.NewSystemOrConfiguredProxy = Proxier.system a.proxyFromEnvironment ∧
      (∀ (E : Externals) (req : http.Request),
        a.NewSystemOrConfiguredProxy.call E req =
          E.NewProxierWithNoProxyCIDR a.proxyFromEnvironment req) ∧
      (∀ (E : Externals) (secretConfigurator : configobserver.Configurator),
        (New E secretConfigurator a.configurator).NewSystemOrConfiguredProxy =
            Proxier.system E.ProxyFromEnvironment ∧
          ∀ req, (New E secretConfigurator a.configurator).NewSystemOrConfiguredProxy.call E req =
            E.NewProxierWithNoProxyCIDR E.ProxyFromEnvironment req) := by
  have hsel := NewSystemOrConfiguredProxy_of_unset a h
  refine ⟨hsel, ?_, ?_⟩
  · intro E req
    rw [hsel]
    rfl
  · intro E secretConfigurator
    have hnew := NewSystemOrConfiguredProxy_of_unset (New E secretConfigurator a.configurator) h
    refine ⟨hnew, ?_⟩
    intro req
    rw [hnew]
    rfl

/-- Witness of C9: the `nil` configuration and the all-empty configuration,
with the same stored resolver, give the same selector. -/
theorem NewSystemOrConfiguredProxy_fallback_witness :
    (authorizerWithProxy none resolverToEnvProxy).NewSystemOrConfiguredProxy =
        Proxier.system resolverToEnvProxy ∧
      (authorizerWithProxy (some configWithoutProxy) resolverToEnvProxy).NewSystemOrConfiguredProxy =
        Proxier.system resolverToEnvProxy :=
  ⟨(NewSystemOrConfiguredProxy_fallback (authorizerWithProxy none resolverToEnvProxy)
      (Or.inl rfl)).1,
    (NewSystemOrConfiguredProxy_fallback
      (authorizerWithProxy (some configWithoutProxy) resolverToEnvProxy)
      (Or.inr ⟨configWithoutProxy, rfl, rfl, rfl, rfl⟩)).1⟩

/-! ## Newlines anywhere in the token -/

/-- C10, as stated, fails: the token `"abc\n"` holds a line feed and `Token`
accepts it, returning `"abc"` with no error. -/
theorem Token_trailing_newline_accepted :
    '\n' ∈ (authorizerWithToken "abc\n").secretConfigurator.Config.Token.data ∧
      (authorizerWithToken "abc\n").Token = ("abc", none) ∧
      ¬ ((authorizerWithToken "abc\n").Token.2 =
          some (fmt.Errorf "cluster authorization token is not valid: contains newlines") ∨
        (authorizerWithToken "abc\n").Token.2 =
          some (fmt.Errorf "cluster authorization token is empty")) := by
  decide

/-- C10, amended: for a token holding a carriage return or a line feed, `Token`
fails with the "contains newlines" or the "empty" error when the trimmed form
holds a carriage return or a line feed or is empty, and otherwise succeeds with
the trimmed form; in every case the value it returns holds no carriage return
and no line feed. -/
theorem Token_newline_rejected_or_stripped (a : Authorizer)
    (hnl : '\n' ∈ a.secretConfigurator.Config.Token.data ∨
      '\r' ∈ a.secretConfigurator.Config.Token.data) :
    ((('\n' ∈ (strings.TrimSpace a.secretConfigurator.Config.Token).data ∨
          '\r' ∈ (strings.TrimSpace a.secretConfigurator.Config.Token).data) ∨
        strings.TrimSpace a.secretConfigurator.Config.Token = "") →
      (a.Token).1 = "" ∧
        ((a.Token).2 =
            some (fmt.Errorf "cluster authorization token is not valid: contains newlines") ∨
          (a.Token).2 = some (fmt.Errorf "cluster authorization token is empty"))) ∧
      (¬ (('\n' ∈ (strings.TrimSpace a.secretConfigurator.Config.Token).data ∨
          '\r' ∈ (strings.TrimSpace a.secretConfigurator.Config.Token).data) ∨
        strings.TrimSpace a.secretConfigurator.Config.Token = "") →
        a.Token = (strings.TrimSpace a.secretConfigurator.Config.Token, none)) ∧
      ('\n' ∉ (a.Token).1.data ∧ '\r' ∉ (a.Token).1.data) := by
  have hne : a.secretConfigurator.Config.Token ≠ "" := by
    intro h0
    rw [h0] at hnl
    revert hnl
    decide
  rw [Token_cases, if_neg hne]
  by_cases h1 : '\n' ∈ (strings.TrimSpace a.secretConfigurator.Config.Token).data ∨
      '\r' ∈ (strings.TrimSpace a.secretConfigurator.Config.Token).data
  · rw [if_pos h1]
    refine ⟨fun _ => ⟨rfl, Or.inl rfl⟩, fun h => absurd (Or.inl h1) h, ?_⟩
    decide
  · rw [if_neg h1]
    by_cases h2 : strings.TrimSpace a.secretConfigurator.Config.Token = ""
    · rw [if_pos h2]
      refine ⟨fun _ => ⟨rfl, Or.inr rfl⟩, fun h => absurd (Or.inr h2) h, ?_⟩
      decide
    · rw [if_neg h2]
      refine ⟨fun h => ?_, fun _ => rfl, ?_⟩
      · rcases h with h | h
        · exact absurd h h1
        · exact absurd h h2
      · exact ⟨fun h => h1 (Or.inl h), fun h => h1 (Or.inr h)⟩

/-- Witness of C10 amended: `"a\nb"` is rejected and `"abc\n"` is accepted as
`"abc"`. -/
theorem Token_newline_rejected_or_stripped_witness :
    (authorizerWithToken "a\nb").Token.2 =
        some (fmt.Errorf "cluster authorization token is not valid: contains newlines") ∧
      (authorizerWithToken "abc\n").Token = ("abc", none) :=
  ⟨((Token_newline_rejected_or_stripped (authorizerWithToken "a\nb") (by decide)).1
      (by decide)).2.resolve_right (by decide),
    (Token_newline_rejected_or_stripped (authorizerWithToken "abc\n") (by decide)).2.1
      (by decide)⟩

/-! ## Determinism of the proxy selection -/

/-- The selector depends on the authorizer through the cluster configuration
snapshot and the stored environment resolver only. -/
theorem NewSystemOrConfiguredProxy_congr (a₁ a₂ : Authorizer)
    (hconfig : a₁.configurator.Config = a₂.configurator.Config)
    (hresolver : a₁.proxyFromEnvironment = a₂.proxyFromEnvironment) :
    a₁.NewSystemOrConfiguredProxy = a₂.NewSystemOrConfiguredProxy := by
  unfold Authorizer.NewSystemOrConfiguredProxy
  rw [hconfig, hresolver]

/-- The wrapper of `knet` depends on the process environment through `NO_PROXY`
and `no_proxy` only. -/
theorem NewProxierWithNoProxyCIDR_congr (S : Stdlib) (Getenv₁ Getenv₂ : String → String)
    (hupper : Getenv₁ "NO_PROXY" = Getenv₂ "NO_PROXY")
    (hlower : Getenv₁ "no_proxy" = Getenv₂ "no_proxy") :
    knet.NewProxierWithNoProxyCIDR S Getenv₁ = knet.NewProxierWithNoProxyCIDR S Getenv₂ := by
  funext delegate
  unfold knet.NewProxierWithNoProxyCIDR
  rw [hupper, hlower]

/-- C12, as stated, fails: with a `nil` cluster configuration and the same
stored resolver for both calls, the selector built while `NO_PROXY` is
`10.0.0.0/8` returns no proxy for `http://10.1.2.3/`, and the selector built
while `NO_PROXY` is unset returns the proxy of the resolver. -/
theorem selectors_differ_when_NO_PROXY_changes :
    (authorizerWithProxy none resolverToEnvProxy).NewSystemOrConfiguredProxy.call
        (externalsAt stdlibIPv4 getenvNoProxyCIDR) (requestTo "http" "10.1.2.3") =
        (none, none) ∧
      (authorizerWithProxy none resolverToEnvProxy).NewSystemOrConfiguredProxy.call
        (externalsAt stdlibIPv4 getenvNothing) (requestTo "http" "10.1.2.3") =
        (some { Scheme := "http", Host := "envproxy:3128", Path := "" }, none) := by
  decide

/-- C12, amended: two calls of `NewSystemOrConfiguredProxy` that read the same
cluster configuration snapshot and the same stored resolver, the first while
the process environment is `Getenv₁` and the second while it is `Getenv₂`,
return selectors that give the same decision on every request when `NO_PROXY`
and `no_proxy` are the same in both environments; when the configuration sets
`HTTPProxy`, `HTTPSProxy` or `NoProxy`, they do so whatever the two
environments are. -/
theorem NewSystemOrConfiguredProxy_same_decisions (a₁ a₂ : Authorizer)
    (hconfig : a₁.configurator.Config = a₂.configurator.Config)
    (hresolver : a₁.proxyFromEnvironment = a₂.proxyFromEnvironment)
    (S : Stdlib) (Getenv₁ Getenv₂ : String → String) (E₁ E₂ : Externals)
    (hfunc : E₁.ProxyFunc = E₂.ProxyFunc)
    (hwrap₁ : E₁.NewProxierWithNoProxyCIDR = knet.NewProxierWithNoProxyCIDR S Getenv₁)
    (hwrap₂ : E₂.NewProxierWithNoProxyCIDR = knet.NewProxierWithNoProxyCIDR S Getenv₂) :
    (Getenv₁ "NO_PROXY" = Getenv₂ "NO_PROXY" → Getenv₁ "no_proxy" = Getenv₂ "no_proxy" →
        ∀ req : http.Request,
          a₁.NewSystemOrConfiguredProxy.call E₁ req =
            a₂.NewSystemOrConfiguredProxy.call E₂ req) ∧
      ((∃ c, a₁.configurator.Config = some c ∧
          (c.Proxy.HTTPProxy ≠ "" ∨ c.Proxy.HTTPSProxy ≠ "" ∨ c.Proxy.NoProxy ≠ "")) →
        ∀ req : http.Request,
          a₁.NewSystemOrConfiguredProxy.call E₁ req =
            a₂.NewSystemOrConfiguredProxy.call E₂ req) := by
  have hsel := NewSystemOrConfiguredProxy_congr a₁ a₂ hconfig hresolver
  constructor
  · intro hupper hlower req
    have hwrap : E₁.NewProxierWithNoProxyCIDR = E₂.NewProxierWithNoProxyCIDR := by
      rw [hwrap₁, hwrap₂]
      exact NewProxierWithNoProxyCIDR_congr S Getenv₁ Getenv₂ hupper hlower
    rw [hsel]
    cases a₂.NewSystemOrConfiguredProxy with
    | configured proxyConfig => simp only [Proxier.call, hfunc]
    | system delegate => simp only [Proxier.call, hwrap]
  · rintro ⟨c, hc, hset⟩ req
    rw [NewSystemOrConfiguredProxy_of_set a₁ c hc hset,
      NewSystemOrConfiguredProxy_of_set a₂ c (hconfig ▸ hc) hset]
    simp only [Proxier.call, hfunc]

/-- Witness of C12 amended: with a `nil` cluster configuration, two
environments with the same `NO_PROXY` that differ in `HTTP_PROXY`. -/
theorem NewSystemOrConfiguredProxy_same_decisions_witness :
    getenvNoProxyCIDR "HTTP_PROXY" ≠ getenvNoProxyCIDRAndProxy "HTTP_PROXY" ∧
      (authorizerWithProxy none resolverToEnvProxy).NewSystemOrConfiguredProxy.call
          (externalsAt stdlibIPv4 getenvNoProxyCIDR) (requestTo "http" "10.1.2.3") =
        (authorizerWithProxy none resolverToEnvProxy).NewSystemOrConfiguredProxy.call
          (externalsAt stdlibIPv4 getenvNoProxyCIDRAndProxy) (requestTo "http" "10.1.2.3") :=
  ⟨by decide,
    (NewSystemOrConfiguredProxy_same_decisions
      (authorizerWithProxy none resolverToEnvProxy) (authorizerWithProxy none resolverToEnvProxy)
      rfl rfl stdlibIPv4 getenvNoProxyCIDR getenvNoProxyCIDRAndProxy
      (externalsAt stdlibIPv4 getenvNoProxyCIDR)
      (externalsAt stdlibIPv4 getenvNoProxyCIDRAndProxy) rfl rfl rfl).1
      (by decide) (by decide) (requestTo "http" "10.1.2.3")⟩

/-! ## What a successful `Token` returns -/

/-- A successful `Token` returns the trimmed form of a non-empty raw token; the
trimmed form is non-empty and holds no carriage return and no line feed. -/
theorem Token_success (a : Authorizer) (t : String) (hT : a.Token = (t, none)) :
    a.secretConfigurator.Config.Token ≠ "" ∧
      t = strings.TrimSpace a.secretConfigurator.Config.Token ∧
      t ≠ "" ∧ '\n' ∉ t.data ∧ '\r' ∉ t.data := by
  rw [Token_cases] at hT
  split_ifs at hT with h0 h1 h2
  · simp at hT
  · simp at hT
  · simp at hT
  · have ht : strings.TrimSpace a.secretConfigurator.Config.Token = t :=
      congrArg Prod.fst hT
    rw [ht] at h1 h2
    exact ⟨h0, ht.symm, h2, fun h => h1 (Or.inl h), fun h => h1 (Or.inr h)⟩

theorem TrimSpace_idempotent (s : String) :
    strings.TrimSpace (strings.TrimSpace s) = strings.TrimSpace s := by
  obtain ⟨l, r, -, -, -, hhead, -⟩ := TrimSpace_spec s
  have hdrop : (strings.TrimSpace s).data.dropWhile unicode.IsSpace =
      (strings.TrimSpace s).data := by
    cases hd : (strings.TrimSpace s).data with
    | nil => rfl
    | cons c cs =>
      have hc := hhead c (by rw [hd]; rfl)
      simp [List.dropWhile, hc]
  have hdata : (strings.TrimSpace (strings.TrimSpace s)).data = (strings.TrimSpace s).data := by
    rw [TrimSpace_data (strings.TrimSpace s), hdrop, TrimSpace_data s]
    exact List.rdropWhile_idempotent _ _
  cases hs : strings.TrimSpace (strings.TrimSpace s) with
  | mk d₁ =>
    cases hs' : strings.TrimSpace s with
    | mk d₂ =>
      rw [hs, hs'] at hdata
      simp at hdata
      rw [hdata]

/-- The request and error `Authorize` returns when `Token` succeeds. -/
theorem Authorize_of_Token_ok (a : Authorizer) (req : http.Request) (t : String)
    (hT : a.Token = (t, none)) :
    a.Authorize req =
      ({ req with
          Header := some ((req.Header.getD http.Header.make).Set "Authorization"
            ("Bearer " ++ t)) }, none) := by
  unfold Authorizer.Authorize
  rw [hT]
  cases req with
  | mk Header URL => cases Header <;> rfl

/-- The request and error `Authorize` returns when `Token` fails. -/
theorem Authorize_of_Token_error (a : Authorizer) (req : http.Request) (v : String)
    (err : error) (hT : a.Token = (v, some err)) :
    a.Authorize req =
      ({ req with Header := some (req.Header.getD http.Header.make) }, some err) := by
  unfold Authorizer.Authorize
  rw [hT]
  cases req with
  | mk Header URL => cases Header <;> rfl

/-- C14: a token that `Token` returns with no error is non-empty, neither
starts nor ends with white space and holds no carriage return and no line
feed; and when `Authorize` returns no error, the one `Authorization` value it
has written holds no carriage return and no line feed. -/
theorem Token_result_clean (a : Authorizer) :
    (∀ t, a.Token = (t, none) →
      t ≠ "" ∧
        (∀ c, t.data.head? = some c → unicode.IsSpace c = false) ∧
        (∀ c, t.data.getLast? = some c → unicode.IsSpace c = false) ∧
        '\n' ∉ t.data ∧ '\r' ∉ t.data) ∧
      ∀ req : http.Request, (a.Authorize req).2 = none →
        ∃ v, (a.Authorize req).1.values "Authorization" = some [v] ∧
          v = "Bearer " ++ (a.Token).1 ∧ '\n' ∉ v.data ∧ '\r' ∉ v.data := by
  constructor
  · intro t hT
    obtain ⟨-, ht, hne, hlf, hcr⟩ := Token_success a t hT
    obtain ⟨l, r, -, -, -, hhead, hlast⟩ :=
      TrimSpace_spec a.secretConfigurator.Config.Token
    rw [← ht] at hhead hlast
    exact ⟨hne, hhead, hlast, hlf, hcr⟩
  · intro req hok
    rcases hT : a.Token with ⟨t, e⟩
    cases e with
    | some err =>
      rw [Authorize_of_Token_error a req t err hT] at hok
      simp at hok
    | none =>
      obtain ⟨-, -, -, hlf, hcr⟩ := Token_success a t hT
      refine ⟨"Bearer " ++ t, ?_, rfl, ?_, ?_⟩
      · rw [Authorize_of_Token_ok a req t hT]
        simp [http.Request.values, http.Header.Set, CanonicalMIMEHeaderKey_Authorization]
      · rw [String.data_append, List.mem_append]
        rintro (h | h)
        · revert h; decide
        · exact hlf h
      · rw [String.data_append, List.mem_append]
        rintro (h | h)
        · revert h; decide
        · exact hcr h

/-- Witness of C14 on the token `"  xyz\r\n"`. -/
theorem Token_result_clean_witness :
    (authorizerWithToken "  xyz\r\n").Token = ("xyz", none) ∧
      '\n' ∉ "xyz".data ∧ '\r' ∉ "xyz".data :=
  ⟨by decide,
    ((Token_result_clean (authorizerWithToken "  xyz\r\n")).1 "xyz" (by decide)).2.2.2⟩

/-! ## Frame of `Authorize` -/

/-- C15: when `Authorize` returns no error, every header name other than
`Authorization` has exactly the values it had before the call, present or
absent alike, and the URL of the request is untouched. -/
theorem Authorize_success_frame (a : Authorizer) (req : http.Request)
    (hok : (a.Authorize req).2 = none) :
    (∀ key, key ≠ "Authorization" → (a.Authorize req).1.values key = req.values key) ∧
      (a.Authorize req).1.URL = req.URL := by
  revert hok
  unfold Authorizer.Authorize
  rcases hT : a.Token with ⟨t, e⟩
  cases e with
  | some err => intro hok; simp at hok
  | none =>
    intro _
    cases req with
    | mk Header URL =>
      refine ⟨?_, rfl⟩
      intro key hkey
      cases Header with
      | none =>
        simp [http.Request.values, http.Header.Set, http.Header.make,
          CanonicalMIMEHeaderKey_Authorization, hkey]
      | some h =>
        simp [http.Request.values, http.Header.Set, CanonicalMIMEHeaderKey_Authorization, hkey]

/-- Witness of C15: with the token `"xyz"`, the `Accept` header of
`requestWithAuthorization` keeps its value and no `Cookie` header appears. -/
theorem Authorize_success_frame_witness :
    ((authorizerWithToken "xyz").Authorize requestWithAuthorization).1.values "Accept" =
        some ["application/json"] ∧
      ((authorizerWithToken "xyz").Authorize requestWithAuthorization).1.values "Cookie" = none :=
  ⟨(Authorize_success_frame (authorizerWithToken "xyz") requestWithAuthorization
      (by decide)).1 "Accept" (by decide),
    (Authorize_success_frame (authorizerWithToken "xyz") requestWithAuthorization
      (by decide)).1 "Cookie" (by decide)⟩

/-! ## Idempotence of the token normalisation -/

/-- C16: when `Token` succeeds with `t`, `Token` on a secret configuration whose
`Token` field is `t` succeeds and returns `t`. -/
theorem Token_idempotent (a b : Authorizer) (t : String)
    (ha : a.Token = (t, none)) (hb : b.secretConfigurator.Config.Token = t) :
    b.Token = (t, none) := by
  obtain ⟨-, ht, hne, hlf, hcr⟩ := Token_success a t ha
  have htrim : strings.TrimSpace t = t := by
    rw [ht]; exact TrimSpace_idempotent _
  rw [Token_cases, hb, htrim, if_neg hne, if_neg (by tauto), if_neg hne]

/-- Witness of C16: `"  abc def\t\n"` gives `"abc def"`, and `"abc def"` gives
`"abc def"` again. -/
theorem Token_idempotent_witness :
    (authorizerWithToken "abc def").Token = ("abc def", none) :=
  Token_idempotent (authorizerWithToken "  abc def\t\n") (authorizerWithToken "abc def")
    "abc def" (by decide) rfl

/-! ## The proxy function of `httpproxy` behind the configured selector -/

/-- In the explicit-configuration branch, calling the selector is calling the
proxy function of the configuration built from the three snapshot values. -/
theorem call_configured (a : Authorizer) (c : config.InsightsConfiguration)
    (hc : a.configurator.Config = some c)
    (hset : c.Proxy.HTTPProxy ≠ "" ∨ c.Proxy.HTTPSProxy ≠ "" ∨ c.Proxy.NoProxy ≠ "")
    (S : Stdlib) (E : Externals) (hE : E.ProxyFunc = httpproxy.Config.ProxyFunc S)
    (req : http.Request) :
    a.NewSystemOrConfiguredProxy.call E req =
      httpproxy.config.proxyForURL S
        (httpproxy.config.init S
          { HTTPProxy := c.Proxy.HTTPProxy
            HTTPSProxy := c.Proxy.HTTPSProxy
            NoProxy := c.Proxy.NoProxy
            CGI := false }) req.URL := by
  rw [NewSystemOrConfiguredProxy_of_set a c hc hset]
  simp only [Proxier.call, hE, httpproxy.Config.ProxyFunc]

/-- C11, as stated, fails: with `HTTPProxy = "http://proxy1:8080\n"`, a value
that cannot be parsed into a URL, the selector returns no proxy and no error on
an `http` request. -/
theorem unparsable_proxy_is_not_an_error :
    (httpproxy.parseProxy stdlibIPv4 configWithBadProxy.Proxy.HTTPProxy).toBool = false ∧
      (authorizerWithProxy (some configWithBadProxy) resolverDirect).NewSystemOrConfiguredProxy.call
          (externalsWith stdlibIPv4) (requestTo "http" "example.com") = (none, none) := by
  decide

/-- The parsed `HTTPProxy` when `url.Parse` rejects the value: what `url.Parse`
makes of the value with `http://` put before it, `nil` when it rejects that
too. -/
theorem init_httpProxy_of_unparsable (S : Stdlib) (cfg : httpproxy.Config)
    (hne : cfg.HTTPProxy ≠ "") (err : error) (hbad : S.url_Parse cfg.HTTPProxy = .error err) :
    (httpproxy.config.init S cfg).httpProxy =
      (S.url_Parse ("http://" ++ cfg.HTTPProxy)).toOption := by
  simp only [httpproxy.config.init, httpproxy.parseProxy, if_neg hne, hbad]
  cases S.url_Parse ("http://" ++ cfg.HTTPProxy) <;> rfl

/-- The parsed `HTTPSProxy` when `url.Parse` rejects the value. -/
theorem init_httpsProxy_of_unparsable (S : Stdlib) (cfg : httpproxy.Config)
    (hne : cfg.HTTPSProxy ≠ "") (err : error) (hbad : S.url_Parse cfg.HTTPSProxy = .error err) :
    (httpproxy.config.init S cfg).httpsProxy =
      (S.url_Parse ("http://" ++ cfg.HTTPSProxy)).toOption := by
  simp only [httpproxy.config.init, httpproxy.parseProxy, if_neg hne, hbad]
  cases S.url_Parse ("http://" ++ cfg.HTTPSProxy) <;> rfl

/-- With `CGI` unset, `proxyForURL` on an `http` or `https` request is the end
of the function applied to the parsed proxy of that scheme. -/
theorem proxyForURL_of_scheme (S : Stdlib) (cfg : httpproxy.config) (reqURL : url.URL)
    (hcgi : cfg.Config.CGI = false) :
    (reqURL.Scheme = "http" →
        httpproxy.config.proxyForURL S cfg reqURL =
          httpproxy.config.proxyOrDirect S cfg reqURL cfg.httpProxy) ∧
      (reqURL.Scheme = "https" →
        httpproxy.config.proxyForURL S cfg reqURL =
          httpproxy.config.proxyOrDirect S cfg reqURL cfg.httpsProxy) := by
  unfold httpproxy.config.proxyForURL
  constructor
  · intro hs
    have hne : ¬ ("http" = "https") := by decide
    simp [hs, hne, hcgi]
  · intro hs
    simp [hs]

/-- C11, amended: when the cluster configuration sets `HTTPProxy` or
`HTTPSProxy` to a non-empty value `v` that `url.Parse` rejects, the selector,
called on a request of that scheme, returns no error; it returns no proxy when
`url.Parse` also rejects `v` with `http://` put before it, and otherwise its
proxy is the URL parsed from `"http://" ++ v`, unless `useProxy` (the
`NoProxy` entries, `localhost` and loopback hosts) excludes the request. -/
theorem unparsable_proxy_never_fails (a : Authorizer) (c : config.InsightsConfiguration)
    (hc : a.configurator.Config = some c)
    (S : Stdlib) (E : Externals) (hE : E.ProxyFunc = httpproxy.Config.ProxyFunc S)
    (req : http.Request) (v : String)
    (hv : (req.URL.Scheme = "http" ∧ c.Proxy.HTTPProxy = v) ∨
      (req.URL.Scheme = "https" ∧ c.Proxy.HTTPSProxy = v))
    (hne : v ≠ "") (hbad : ∃ err, S.url_Parse v = .error err) :
    (a.NewSystemOrConfiguredProxy.call E req).2 = none ∧
      ((∃ err, S.url_Parse ("http://" ++ v) = .error err) →
        a.NewSystemOrConfiguredProxy.call E req = (none, none)) ∧
      (∀ u, S.url_Parse ("http://" ++ v) = .ok u →
        a.NewSystemOrConfiguredProxy.call E req =
          if httpproxy.config.useProxy S
              (httpproxy.config.init S
                { HTTPProxy := c.Proxy.HTTPProxy
                  HTTPSProxy := c.Proxy.HTTPSProxy
                  NoProxy := c.Proxy.NoProxy
                  CGI := false })
              (httpproxy.canonicalAddr S req.URL) = true then
            (some u, none)
          else (none, none)) := by
  obtain ⟨err, herr⟩ := hbad
  have hset : c.Proxy.HTTPProxy ≠ "" ∨ c.Proxy.HTTPSProxy ≠ "" ∨ c.Proxy.NoProxy ≠ "" := by
    rcases hv with ⟨-, h⟩ | ⟨-, h⟩
    · exact Or.inl (h ▸ hne)
    · exact Or.inr (Or.inl (h ▸ hne))
  have hcall : a.NewSystemOrConfiguredProxy.call E req =
      httpproxy.config.proxyOrDirect S
        (httpproxy.config.init S
          { HTTPProxy := c.Proxy.HTTPProxy
            HTTPSProxy := c.Proxy.HTTPSProxy
            NoProxy := c.Proxy.NoProxy
            CGI := false }) req.URL (S.url_Parse ("http://" ++ v)).toOption := by
    rw [call_configured a c hc hset S E hE req]
    rcases hv with ⟨hs, h⟩ | ⟨hs, h⟩
    · rw [(proxyForURL_of_scheme S _ req.URL rfl).1 hs,
        init_httpProxy_of_unparsable S _ (h ▸ hne) err (h ▸ herr), h]
    · rw [(proxyForURL_of_scheme S _ req.URL rfl).2 hs,
        init_httpsProxy_of_unparsable S _ (h ▸ hne) err (h ▸ herr), h]
  rw [hcall]
  cases hparse : S.url_Parse ("http://" ++ v) with
  | error e =>
    refine ⟨rfl, fun _ => rfl, ?_⟩
    intro u hu
    cases hu
  | ok u =>
    refine ⟨?_, ?_, ?_⟩
    · simp only [Except.toOption, httpproxy.config.proxyOrDirect]
      split_ifs <;> rfl
    · rintro ⟨e, he⟩
      cases he
    · intro u' hu
      injection hu with hu
      subst hu
      simp only [Except.toOption, httpproxy.config.proxyOrDirect]
      cases httpproxy.config.useProxy S _ (httpproxy.canonicalAddr S req.URL) <;> simp

/-- Witness of C11 amended: `HTTPProxy = "http://proxy1:8080\n"` gives no proxy
and no error, and `HTTPProxy = "10.0.0.1:3128"`, which `url.Parse` rejects as
well, gives the proxy `http://10.0.0.1:3128`. -/
theorem unparsable_proxy_never_fails_witness :
    (authorizerWithProxy (some configWithBadProxy) resolverDirect).NewSystemOrConfiguredProxy.call
        (externalsWith stdlibIPv4) (requestTo "http" "example.com") = (none, none) ∧
      (authorizerWithProxy (some configWithBareProxy)
        resolverDirect).NewSystemOrConfiguredProxy.call
          (externalsWith stdlibIPv4) (requestTo "http" "example.com") =
        (some { Scheme := "http", Host := "10.0.0.1:3128", Path := "" }, none) :=
  ⟨(unparsable_proxy_never_fails (authorizerWithProxy (some configWithBadProxy) resolverDirect)
      configWithBadProxy rfl stdlibIPv4 (externalsWith stdlibIPv4) rfl
      (requestTo "http" "example.com") "http://proxy1:8080\n" (Or.inl ⟨rfl, rfl⟩) (by decide)
      ⟨_, rfl⟩).2.1 ⟨_, rfl⟩,
    (unparsable_proxy_never_fails (authorizerWithProxy (some configWithBareProxy) resolverDirect)
      configWithBareProxy rfl stdlibIPv4 (externalsWith stdlibIPv4) rfl
      (requestTo "http" "example.com") "10.0.0.1:3128" (Or.inl ⟨rfl, rfl⟩) (by decide)
      ⟨_, rfl⟩).2.2 { Scheme := "http", Host := "10.0.0.1:3128", Path := "" } rfl⟩

theorem SplitHostPort_empty_fails (host port : String) :
    net.SplitHostPort "" ≠ .ok (host, port) := by
  intro h
  have h' : net.SplitHostPort "" =
      .error ⟨"address " ++ "" ++ ": missing port in address"⟩ := rfl
  rw [h'] at h
  cases h

/-- With one CIDR matcher and no domain matcher, an address whose host is an IP
address uses the proxy exactly when the address is neither a loopback address
nor inside the CIDR range. -/
theorem useProxy_of_cidr (S : Stdlib) (cfg : httpproxy.config) (n : net.IPNet)
    (hipm : cfg.ipMatchers = [httpproxy.matcher.cidrMatch n]) (hdm : cfg.domainMatchers = [])
    (addr host port : String) (ip : net.IP)
    (hsplit : net.SplitHostPort addr = .ok (host, port))
    (hip : S.net_ParseIP host = some ip) (hlocal : S.net_ParseIP "localhost" = none) :
    httpproxy.config.useProxy S cfg addr = (!ip.IsLoopback && !n.Contains ip) := by
  have haddr : ¬ (len addr == 0) = true := by
    rw [beq_iff_eq, len_eq_zero_iff]
    intro h0
    rw [h0] at hsplit
    exact SplitHostPort_empty_fails host port hsplit
  have hhost : host ≠ "localhost" := by
    intro h0
    rw [h0, hlocal] at hip
    cases hip
  unfold httpproxy.config.useProxy
  rw [if_neg haddr, hsplit]
  simp only [if_neg hhost, hip, hipm, hdm, List.any_cons, List.any_nil, Bool.or_false,
    httpproxy.matcher.matchAddr]
  cases ip.IsLoopback <;> cases n.Contains ip <;> simp

/-- The parsed form of the configuration `HTTPProxy = "http://proxy1:8080"`,
`NoProxy = "10.0.0.0/8"`. -/
theorem init_proxy1_net10 (S : Stdlib)
    (hparse : S.url_Parse "http://proxy1:8080" =
      .ok { Scheme := "http", Host := "proxy1:8080", Path := "" })
    (hlower : S.strings_ToLower "10.0.0.0/8" = "10.0.0.0/8")
    (hcidr : S.net_ParseCIDR "10.0.0.0/8" = some { IP := [10, 0, 0, 0], Mask := [255, 0, 0, 0] }) :
    (httpproxy.config.init S
        { HTTPProxy := "http://proxy1:8080", HTTPSProxy := "", NoProxy := "10.0.0.0/8",
          CGI := false }).httpProxy = some { Scheme := "http", Host := "proxy1:8080", Path := "" } ∧
      (httpproxy.config.init S
        { HTTPProxy := "http://proxy1:8080", HTTPSProxy := "", NoProxy := "10.0.0.0/8",
          CGI := false }).ipMatchers =
        [httpproxy.matcher.cidrMatch { IP := [10, 0, 0, 0], Mask := [255, 0, 0, 0] }] ∧
      (httpproxy.config.init S
        { HTTPProxy := "http://proxy1:8080", HTTPSProxy := "", NoProxy := "10.0.0.0/8",
          CGI := false }).domainMatchers = [] ∧
      (httpproxy.config.init S
        { HTTPProxy := "http://proxy1:8080", HTTPSProxy := "", NoProxy := "10.0.0.0/8",
          CGI := false }).Config.CGI = false := by
  have hsplit : strings.Split "10.0.0.0/8" ',' = ["10.0.0.0/8"] := by decide
  have htrim : strings.TrimSpace "10.0.0.0/8" = "10.0.0.0/8" := by decide
  have hlen : ¬ (len "10.0.0.0/8" == 0) = true := by decide
  have hstar : ¬ ("10.0.0.0/8" = "*") := by decide
  have hentries : httpproxy.config.initNoProxy S (strings.Split "10.0.0.0/8" ',') [] [] =
      ([httpproxy.matcher.cidrMatch { IP := [10, 0, 0, 0], Mask := [255, 0, 0, 0] }], []) := by
    rw [hsplit]
    simp only [httpproxy.config.initNoProxy, htrim, hlower, if_neg hlen, if_neg hstar,
      httpproxy.config.initEntry, hcidr, List.nil_append]
  have hproxy : httpproxy.parseProxy S "http://proxy1:8080" =
      .ok (some { Scheme := "http", Host := "proxy1:8080", Path := "" }) := by
    have h1 : ¬ ("http://proxy1:8080" = "") := by decide
    have h2 : ¬ (("http" = "" : Bool) || ("proxy1:8080" = "" : Bool)) = true := by decide
    unfold httpproxy.parseProxy
    rw [if_neg h1, hparse]
    simp only []
    rw [if_neg h2]
  refine ⟨?_, ?_, ?_, rfl⟩
  · simp only [httpproxy.config.init, hproxy]
  · simp only [httpproxy.config.init, hentries]
  · simp only [httpproxy.config.init, hentries]

/-- C13, as stated, fails on its second half: `127.0.0.1` is an IP address
outside `10.0.0.0/8`, and the selector returns no proxy for the `http` request
to it. -/
theorem loopback_outside_range_is_not_proxied :
    standIn.ParseIP "127.0.0.1" =
        some [0, 0, 0, 0, 0, 0, 0, 0, 0, 0, 0xff, 0xff, 127, 0, 0, 1] ∧
      net.IPNet.Contains { IP := [10, 0, 0, 0], Mask := [255, 0, 0, 0] }
        [0, 0, 0, 0, 0, 0, 0, 0, 0, 0, 0xff, 0xff, 127, 0, 0, 1] = false ∧
      (authorizerWithProxy (some configWithProxy) resolverDirect).NewSystemOrConfiguredProxy.call
          (externalsWith stdlibIPv4) (requestTo "http" "127.0.0.1") = (none, none) := by
  decide

/-- C13, amended: with `HTTPProxy = "http://proxy1:8080"`, `HTTPSProxy` empty and
`NoProxy = "10.0.0.0/8"`, the selector, called on an `http` request whose
canonical address has as host the IP address `ip`, returns no proxy and no
error when `ip` is inside `10.0.0.0/8`, and returns `http://proxy1:8080` when
`ip` is outside `10.0.0.0/8` and is not a loopback address. -/
theorem configured_proxy_respects_cidr (a : Authorizer)
    (hc : a.configurator.Config = some
      { Proxy := { HTTPProxy := "http://proxy1:8080", HTTPSProxy := "", NoProxy := "10.0.0.0/8" } })
    (S : Stdlib) (E : Externals) (hE : E.ProxyFunc = httpproxy.Config.ProxyFunc S)
    (hparse : S.url_Parse "http://proxy1:8080" =
      .ok { Scheme := "http", Host := "proxy1:8080", Path := "" })
    (hlower : S.strings_ToLower "10.0.0.0/8" = "10.0.0.0/8")
    (hcidr : S.net_ParseCIDR "10.0.0.0/8" = some { IP := [10, 0, 0, 0], Mask := [255, 0, 0, 0] })
    (hlocal : S.net_ParseIP "localhost" = none)
    (req : http.Request) (hscheme : req.URL.Scheme = "http")
    (host port : String) (ip : net.IP)
    (hsplit : net.SplitHostPort (httpproxy.canonicalAddr S req.URL) = .ok (host, port))
    (hip : S.net_ParseIP host = some ip) :
    (net.IPNet.Contains { IP := [10, 0, 0, 0], Mask := [255, 0, 0, 0] } ip = true →
        a.NewSystemOrConfiguredProxy.call E req = (none, none)) ∧
      (net.IPNet.Contains { IP := [10, 0, 0, 0], Mask := [255, 0, 0, 0] } ip = false →
        ip.IsLoopback = false →
        a.NewSystemOrConfiguredProxy.call E req =
          (some { Scheme := "http", Host := "proxy1:8080", Path := "" }, none)) := by
  obtain ⟨hproxy, hipm, hdm, hcgi⟩ := init_proxy1_net10 S hparse hlower hcidr
  have hcall := call_configured a _ hc (Or.inl (by decide)) S E hE req
  have huse := useProxy_of_cidr S _ _ hipm hdm _ host port ip hsplit hip hlocal
  have hne : ¬ ("http" = "https") := by decide
  constructor
  · intro hin
    rw [hcall]
    unfold httpproxy.config.proxyForURL
    simp [hscheme, hproxy, hcgi, httpproxy.config.proxyOrDirect, huse, hin]
  · intro hout hloop
    rw [hcall]
    unfold httpproxy.config.proxyForURL
    simp [hscheme, hproxy, hcgi, httpproxy.config.proxyOrDirect, huse, hout, hloop]

/-- Witness of C13 amended: no proxy for `http://10.1.2.3/`, and
`http://proxy1:8080` for `http://192.168.1.1:8080/`. -/
theorem configured_proxy_respects_cidr_witness :
    (authorizerWithProxy (some configWithProxy) resolverDirect).NewSystemOrConfiguredProxy.call
        (externalsWith stdlibIPv4) (requestTo "http" "10.1.2.3") = (none, none) ∧
      (authorizerWithProxy (some configWithProxy) resolverDirect).NewSystemOrConfiguredProxy.call
        (externalsWith stdlibIPv4) (requestTo "http" "192.168.1.1:8080") =
          (some { Scheme := "http", Host := "proxy1:8080", Path := "" }, none) :=
  ⟨(configured_proxy_respects_cidr (authorizerWithProxy (some configWithProxy) resolverDirect)
      rfl stdlibIPv4 (externalsWith stdlibIPv4) rfl rfl (by decide) (by decide)
      (by decide) (requestTo "http" "10.1.2.3") rfl "10.1.2.3" "80"
      [0, 0, 0, 0, 0, 0, 0, 0, 0, 0, 0xff, 0xff, 10, 1, 2, 3] rfl (by decide)).1
      (by decide),
    (configured_proxy_respects_cidr (authorizerWithProxy (some configWithProxy) resolverDirect)
      rfl stdlibIPv4 (externalsWith stdlibIPv4) rfl rfl (by decide) (by decide)
      (by decide) (requestTo "http" "192.168.1.1:8080") rfl "192.168.1.1" "8080"
      [0, 0, 0, 0, 0, 0, 0, 0, 0, 0, 0xff, 0xff, 192, 168, 1, 1] rfl (by decide)).2
      (by decide) (by decide)⟩

end clusterauthorizer
